import Mathlib

/-!
Shallow embedding of the fault-diagnosis reasoning engine of the
Shukongdashi repository (package `kgqa_framework`), together with theorems
settling the specification claims about it.

Conventions of the embedding:
* Python `float` values are modelled as `ℚ` wherever they are produced by
  the repository's own arithmetic (confidences, weights); the irrational
  cosine-similarity values of the vector-space matcher are modelled in `ℝ`.
* Python `None`-able strings are `Option String`; Python truthiness of a
  string option (`if s:`) is `pyTruthy`.
* Python lists are `List`; `dict` accumulation keyed by insertion order is
  an association list updated in place (`addScore`).
* Sources: `kgqa_framework/models/entities.py`,
  `core/solution_recommender.py`, `core/kg_engine.py`,
  `core/similarity_matcher.py`, `core/fault_analyzer.py`,
  `utils/text_processor.py`, `utils/entity_recognizer.py`.
-/

namespace Shukongdashi

/-- `FaultType` enumeration from `models/entities.py` (values 操作, 现象,
部位, 报警, 原因). -/
inductive FaultType where
  | operation
  | phenomenon
  | location
  | alarm
  | cause
deriving DecidableEq, Repr

/-- `FaultElement` dataclass from `models/entities.py`: a typed, positioned
span of fault-description text. `confidence` is a Python float, modelled as
`ℚ`; `position` is `Optional[int]`. -/
structure FaultElement where
  content : String
  elementType : FaultType
  confidence : ℚ
  position : Option Int
deriving DecidableEq, Repr

/-- `EquipmentInfo` dataclass from `models/entities.py`. -/
structure EquipmentInfo where
  brand : Option String
  model : Option String
  errorCode : Option String
deriving DecidableEq, Repr

/-- `UserQuery` dataclass from `models/entities.py`. -/
structure UserQuery where
  equipmentInfo : EquipmentInfo
  faultDescription : String
  relatedPhenomena : List String
  userFeedback : Option String
deriving DecidableEq, Repr

/-- `SimilarCase` dataclass from `models/entities.py`.  The stored
`similarity` field is the float recorded at case-creation time. -/
structure SimilarCase where
  caseId : String
  description : String
  similarity : ℚ
  elements : List FaultElement
  solution : String
deriving DecidableEq, Repr

/-- One cause row of the knowledge-graph reasoning result: the dict
`{"cause": ..., "confidence": ..., "related_phenomenon": ...}` built by
`kg_engine.get_fault_causes_by_phenomena`. -/
structure CauseInfo where
  cause : String
  confidence : ℚ
  relatedPhenomenon : String
deriving DecidableEq, Repr

/-- One phenomenon row of the reasoning result: the dicts
`{"phenomenon": ..., "confidence": ..., "related_operation"/"related_location"
/"related_alarm": ...}` built by the `kg_engine` phenomenon queries.  The
name of the third key is recorded in `relatedKey`. -/
structure PhenomenonInfo where
  phenomenon : String
  confidence : ℚ
  relatedKey : String
  relatedValue : String
deriving DecidableEq, Repr

/-- The dict returned by `kg_engine.execute_reasoning_chain`.  The source
also initialises `"reasoning_paths": []` and `"confidence_scores": {}` but
never writes to either, so they are omitted here. -/
structure ReasoningResult where
  causes : List CauseInfo
  relatedPhenomena : List PhenomenonInfo
deriving DecidableEq, Repr

/-- One entry of `DiagnosisResult.reasoning_path`: the source appends
heterogeneous dicts with keys `step`, `description`, `results`; the
`results` value is either a list of cause dicts (graph stage) or a list of
serialized cases (case stage), so both are carried here and the unused one
is empty. -/
structure ReasoningStep where
  step : String
  description : String
  causeResults : List CauseInfo
  caseResults : List SimilarCase
deriving DecidableEq, Repr

/-- `DiagnosisResult` dataclass from `models/entities.py`. -/
structure DiagnosisResult where
  causes : List String
  solutions : List String
  confidence : ℚ
  reasoningPath : List ReasoningStep
  similarCases : List SimilarCase
  recommendations : List String
deriving DecidableEq, Repr

/-- Python truthiness of an optional string (`if s:`): `None` and the empty
string are falsy. -/
def pyTruthy : Option String → Bool
  | none => false
  | some s => s ≠ ""

/-- Python `str.lower()`: character-wise lower-casing (the repository's
strings are ASCII and CJK, on which `Char.toLower` agrees with Python). -/
def pyLower (s : String) : String :=
  String.mk (s.data.map Char.toLower)

/-- Python `str.strip()`: drop whitespace from both ends. -/
def pyStrip (s : String) : String :=
  String.mk (((s.data.dropWhile Char.isWhitespace).reverse.dropWhile
    Char.isWhitespace).reverse)

/-- Index of the first occurrence of `pat` in `text` (Python `str.find`,
with absence as `none`). -/
def findSubstrPos (text pat : List Char) : Option Nat :=
  if pat.isPrefixOf text then some 0
  else match text with
    | [] => none
    | _ :: cs => (findSubstrPos cs pat).map (· + 1)

/-- Substring containment, Python's `pat in s`.  The empty pattern is
contained in every string. -/
def strContains (s pat : String) : Bool :=
  (findSubstrPos s.data pat.data).isSome

/-- Accumulator recursion for `dedupKeepFirst` (`seen` is the set of
already emitted values). -/
def dedupKeepFirstAux {α : Type} [DecidableEq α] :
    List α → List α → List α
  | [], _ => []
  | x :: xs, seen =>
      if x ∈ seen then dedupKeepFirstAux xs seen
      else x :: dedupKeepFirstAux xs (x :: seen)

/-- First-seen-order deduplication, Python's `list(dict.fromkeys(xs))`. -/
def dedupKeepFirst {α : Type} [DecidableEq α] (l : List α) : List α :=
  dedupKeepFirstAux l []

/-- Insertion of `x` into a sorted list, after every element `y` with
`le y x` (so an earlier element equal to `x` under `le` stays in front:
the placement of a stable sort). -/
def pyInsert {α : Type} (le : α → α → Bool) (x : α) : List α → List α
  | [] => [x]
  | y :: ys => if le x y then x :: y :: ys else y :: pyInsert le x ys

/-- Stable sort by the boolean relation `le`, Python's `list.sort`/`sorted`
(which are stable): elements comparing equal keep their input order. -/
def pySorted {α : Type} (le : α → α → Bool) : List α → List α
  | [] => []
  | x :: xs => pyInsert le x (pySorted le xs)

/-- In-place accumulation into an insertion-ordered score table, Python's
`cause_scores[k] += v` on a `defaultdict(float)`. -/
def addScore : List (String × ℚ) → String → ℚ → List (String × ℚ)
  | [], k, v => [(k, v)]
  | (k', v') :: rest, k, v =>
      if k' = k then (k', v' + v) :: rest else (k', v') :: addScore rest k v

/-! ## Solution recommender (`core/solution_recommender.py`) -/

/-- `SolutionRecommender.__init__` configuration: whether web search is
enabled (`enable_web_search`, default `True`). -/
structure RecommenderCfg where
  enableWebSearch : Bool
deriving DecidableEq, Repr

/-- `self.solution_database` from `SolutionRecommender.__init__`, in
insertion order. -/
def solutionDatabase : List (String × List String) :=
  [("电机故障", ["检查电机电源连接", "检查电机轴承是否损坏", "检查电机线圈绝缘", "更换损坏的电机组件"]),
   ("液压系统故障", ["检查液压油位和质量", "检查液压泵工作状态", "检查液压管路是否有泄漏", "清洗或更换液压滤芯"]),
   ("数控系统故障", ["重启数控系统", "检查系统参数设置", "更新系统软件", "检查硬件连接"]),
   ("机械故障", ["检查机械传动部件", "调整机械间隙", "润滑机械部件", "更换磨损零件"])]

/-- `self.alarm_solutions` from `SolutionRecommender.__init__`. -/
def alarmSolutions : List (String × List String) :=
  [("ALM401", ["检查刀库液压系统压力", "检查刀链传动机构", "调整刀库定位参数", "检查刀库电机工作状态"]),
   ("ALM402", ["检查主轴定向功能", "检查主轴编码器", "调整主轴参数"])]

/-- `SolutionRecommender._infer_causes_from_solution`: keyword-matching a
solution text to plausible causes. -/
def inferCausesFromSolution (solution : String) : List String :=
  (if strContains solution "电机" then ["电机故障"] else [])
  ++ (if strContains solution "液压" then ["液压系统故障"] else [])
  ++ (if strContains solution "轴承" then ["轴承磨损"] else [])
  ++ (if strContains solution "润滑" then ["润滑不良"] else [])
  ++ (if strContains solution "温度" then ["温度异常"] else [])
  ++ (if strContains solution "参数" then ["参数设置错误"] else [])

/-- `SolutionRecommender._integrate_causes`: accumulate graph-cause
confidences and case-inferred causes weighted by `similarity * 0.5` into an
insertion-ordered score table, sort by score descending (Python's stable
`sorted(..., reverse=True)`), and keep the first five cause names. -/
def integrateCauses (kgResult : ReasoningResult) (similarCases : List SimilarCase) :
    List String :=
  let afterKg := kgResult.causes.foldl
    (fun table ci => addScore table ci.cause ci.confidence) []
  let table := similarCases.foldl
    (fun table c =>
      (inferCausesFromSolution c.solution).foldl
        (fun t cause => addScore t cause (c.similarity * 0.5)) table)
    afterKg
  let sorted := pySorted (fun a b => decide (b.2 ≤ a.2)) table
  (sorted.take 5).map (·.1)

/-- `SolutionRecommender._get_solutions_by_cause`: a category of
`solution_database` matches when the category name (its whitespace-split
parts; the names contain no whitespace, so the whole name) is a substring
of the cause. -/
def getSolutionsByCause (cause : String) : List String :=
  solutionDatabase.flatMap fun cs => if strContains cause cs.1 then cs.2 else []

/-- `SolutionRecommender._get_solutions_by_equipment`: brand-specific
solutions, matched on the lower-cased brand. -/
def getSolutionsByEquipment (info : EquipmentInfo) : List String :=
  if pyTruthy info.brand then
    let bl := pyLower (info.brand.getD "")
    if strContains bl "fanuc" || strContains bl "发那科" then
      ["检查FANUC系统参数设置", "查看FANUC报警历史记录", "重置FANUC系统"]
    else if strContains bl "siemens" || strContains bl "西门子" then
      ["检查SIEMENS系统诊断信息", "执行SIEMENS系统自检程序"]
    else []
  else []

/-- `SolutionRecommender._get_solutions_by_elements`: keyword-triggered
generic solutions derived from the fault elements. -/
def getSolutionsByElements (faultElements : List FaultElement) : List String :=
  faultElements.flatMap fun e =>
    let c := pyLower e.content
    (if strContains c "温度" || strContains c "过热" then
       ["检查冷却系统工作状态", "清理散热通道", "检查温度传感器"] else [])
    ++ (if strContains c "振动" || strContains c "异响" then
       ["检查机械连接紧固情况", "检查轴承状态", "调整机械平衡"] else [])
    ++ (if strContains c "停止" || strContains c "不运行" then
       ["检查电源供应", "检查控制信号", "重启设备"] else [])

/-- `SolutionRecommender._generate_solutions`: cause-derived, brand-derived,
error-code-derived and element-derived solutions, deduplicated preserving
first-seen order (`list(dict.fromkeys(...))`) and truncated to ten. -/
def generateSolutions (causes : List String) (userQuery : UserQuery)
    (faultElements : List FaultElement) : List String :=
  let solutions :=
    causes.flatMap getSolutionsByCause
    ++ getSolutionsByEquipment userQuery.equipmentInfo
    ++ (if pyTruthy userQuery.equipmentInfo.errorCode then
          ((alarmSolutions.lookup (userQuery.equipmentInfo.errorCode.getD "")).getD [])
        else [])
    ++ getSolutionsByElements faultElements
  (dedupKeepFirst solutions).take 10

/-- `SolutionRecommender._calculate_confidence`: the weighted evidence
factors (`kg average × 0.6`, `similarity average × 0.4`) of the non-empty
sources are collected and their plain average is returned; with no factor
at all the floor `0.1` is returned. -/
def calculateConfidence (kgResult : ReasoningResult)
    (similarCases : List SimilarCase) : ℚ :=
  let factors :=
    (if kgResult.causes ≠ [] then
       [(kgResult.causes.map (·.confidence)).sum / kgResult.causes.length * 0.6]
     else [])
    ++ (if similarCases ≠ [] then
       [(similarCases.map (·.similarity)).sum / similarCases.length * 0.4]
     else [])
  if factors ≠ [] then factors.sum / factors.length else 0.1

/-- `SolutionRecommender._generate_reasoning_path`: one entry for the graph
stage, and one for the case stage (showing only the first three cases) when
any case matched. -/
def generateReasoningPath (kgResult : ReasoningResult)
    (similarCases : List SimilarCase) : List ReasoningStep :=
  [⟨"知识图谱推理", "基于知识图谱进行故障原因分析", kgResult.causes, []⟩]
  ++ (if similarCases ≠ [] then
        [⟨"相似案例匹配",
          "找到 " ++ toString similarCases.length ++ " 个相似案例",
          [], similarCases.take 3⟩]
      else [])

/-- `SolutionRecommender._generate_recommendations` (the follow-up check
suggestions): cause-keyed suggestions for the first three causes followed
by three generic ones, passed through `list(set(...))`.  Python's set
iteration order is implementation-defined; it is modelled as first-seen
deduplication, which no claim's statement depends on. -/
def generateFurtherRecommendations (causes : List String)
    (_faultElements : List FaultElement) : List String :=
  let fromCauses := (causes.take 3).filterMap fun cause =>
    if strContains cause "电机" then some "建议检查相关电机的运行状态和参数"
    else if strContains cause "液压" then some "建议检查液压系统的压力和油液状态"
    else if strContains cause "轴承" then some "建议检查轴承的润滑和磨损情况"
    else none
  dedupKeepFirst
    (fromCauses ++ ["建议记录故障发生时的具体操作步骤", "建议检查设备的日常维护记录",
                    "如问题持续，建议联系设备制造商技术支持"])

/-- The fixed mock result list of `SolutionRecommender._mock_web_search`. -/
def mockResults : List String :=
  ["根据网络资源：建议检查设备电源系统",
   "根据网络资源：建议更新设备驱动程序",
   "根据网络资源：建议联系设备制造商获取最新技术文档",
   "根据网络资源：建议检查设备的环境条件是否符合要求"]

/-- Python `random.randint(lo, hi)` (both bounds inclusive), driven by one
draw of the explicit randomness oracle. -/
def pyRandint (lo hi d : ℕ) : ℕ := lo + d % (hi + 1 - lo)

/-- Python `random.sample(xs, k)`: `k` distinct positions drawn without
replacement, each draw of the oracle selecting one of the remaining
elements. -/
def pySample {α : Type} : List α → ℕ → (ℕ → ℕ) → List α
  | _, 0, _ => []
  | xs, k + 1, draws =>
      if h : 0 < xs.length then
        let i := draws 0 % xs.length
        xs.get ⟨i, Nat.mod_lt _ h⟩ ::
          pySample (xs.eraseIdx i) k (fun j => draws (j + 1))
      else []

/-- `SolutionRecommender._mock_web_search`: returns `randint(1, 3)` entries
sampled from the fixed `mockResults` list; the query string is ignored.
The pseudo-randomness of `random` is modelled by the explicit oracle
`draws`. -/
def mockWebSearch (draws : ℕ → ℕ) (_query : String) : List String :=
  let numResults := pyRandint 1 (min 3 mockResults.length) (draws 0)
  pySample mockResults numResults (fun j => draws (j + 1))

/-- `SolutionRecommender._search_online_solutions`: builds the search
keyword string from the truthy equipment fields, the first 50 characters of
the fault description and a fixed suffix, then delegates to the mock
search. -/
def searchOnlineSolutions (cfg : RecommenderCfg) (draws : ℕ → ℕ)
    (userQuery : UserQuery) : List String :=
  if ¬ cfg.enableWebSearch then []
  else
    let kws :=
      (if pyTruthy userQuery.equipmentInfo.brand then
         [userQuery.equipmentInfo.brand.getD ""] else [])
      ++ (if pyTruthy userQuery.equipmentInfo.model then
         [userQuery.equipmentInfo.model.getD ""] else [])
      ++ (if pyTruthy userQuery.equipmentInfo.errorCode then
         [userQuery.equipmentInfo.errorCode.getD ""] else [])
      ++ [userQuery.faultDescription.take 50, "解决方法"]
    mockWebSearch draws (String.intercalate " " kws)

/-- The body of `SolutionRecommender.generate_recommendations` (the `try`
block): integrate causes, generate solutions, compute confidence, build the
reasoning path and recommendations, and append the online supplement when
web search is enabled and the confidence is below 0.7. -/
def generateRecommendations (cfg : RecommenderCfg) (draws : ℕ → ℕ)
    (kgResult : ReasoningResult) (similarCases : List SimilarCase)
    (userQuery : UserQuery) (faultElements : List FaultElement) :
    DiagnosisResult :=
  let causes := integrateCauses kgResult similarCases
  let solutions := generateSolutions causes userQuery faultElements
  let confidence := calculateConfidence kgResult similarCases
  let reasoningPath := generateReasoningPath kgResult similarCases
  let recommendations := generateFurtherRecommendations causes faultElements
  let solutions :=
    if cfg.enableWebSearch ∧ confidence < 0.7 then
      solutions ++ searchOnlineSolutions cfg draws userQuery
    else solutions
  { causes := causes, solutions := solutions, confidence := confidence,
    reasoningPath := reasoningPath, similarCases := similarCases,
    recommendations := recommendations }

/-- The minimal `DiagnosisResult` built by the `except` branch of
`SolutionRecommender.generate_recommendations` (lines 129-138). -/
def recommendOnError : DiagnosisResult :=
  { causes := ["分析失败"], solutions := ["请联系技术支持"], confidence := 0,
    reasoningPath := [], similarCases := [], recommendations := [] }

/-- The exception handling of `SolutionRecommender.generate_recommendations`:
a normally computed result is returned as is, any raised failure is
converted to `recommendOnError` — the caller never observes an
exception. -/
def handleRecommendFailure (r : Except String DiagnosisResult) :
    DiagnosisResult :=
  match r with
  | Except.ok res => res
  | Except.error _ => recommendOnError

/-! ## Knowledge-graph engine (`core/kg_engine.py`)

The Neo4j store is modelled as explicit edge lists, one per relation type
of the engine's `relation_types` map (`CX` 操作→现象, `XY` 现象→原因,
`XX` 现象→现象, `XB` 现象→部位, `XJ` 现象→报警); each edge carries the
`title` of its two endpoints, which is all the engine reads. -/

/-- The knowledge graph visible to `KnowledgeGraphEngine`. -/
structure KnowledgeGraph where
  cxEdges : List (String × String)
  xyEdges : List (String × String)
  xxEdges : List (String × String)
  xbEdges : List (String × String)
  xjEdges : List (String × String)
deriving DecidableEq, Repr

/-- `KnowledgeGraphEngine.get_fault_causes_by_phenomena`: per phenomenon a
Cypher `UNION` of the direct `XY` rows (confidence 1.0) and the two-hop
`XX`-then-`XY` rows (confidence 0.8).  `UNION` returns distinct rows, so
the `(cause, confidence)` rows of one query are deduplicated, keeping the
first occurrence (the store's row order is modelled by edge-list order). -/
def getFaultCausesByPhenomena (g : KnowledgeGraph) (phenomena : List String) :
    List CauseInfo :=
  phenomena.flatMap fun p =>
    let direct := (g.xyEdges.filter (fun e => e.1 = p)).map
      (fun e => (e.2, (1 : ℚ)))
    let twoHop := (g.xxEdges.filter (fun e => e.1 = p)).flatMap fun e1 =>
      (g.xyEdges.filter (fun e => e.1 = e1.2)).map (fun e => (e.2, (0.8 : ℚ)))
    (dedupKeepFirst (direct ++ twoHop)).map fun r => ⟨r.1, r.2, p⟩

/-- `KnowledgeGraphEngine.get_related_phenomena_by_operations`: `CX` edges
whose operation title contains the queried operation as a substring,
confidence 0.9. -/
def getRelatedPhenomenaByOperations (g : KnowledgeGraph)
    (operations : List String) : List PhenomenonInfo :=
  operations.flatMap fun o =>
    (g.cxEdges.filter (fun e => strContains e.1 o)).map
      (fun e => ⟨e.2, 0.9, "related_operation", o⟩)

/-- `KnowledgeGraphEngine.get_location_phenomena`: `XB` edges (matched
undirected in the Cypher pattern, with the labels fixing the endpoints)
whose location title contains the queried location, confidence 0.8. -/
def getLocationPhenomena (g : KnowledgeGraph) (locations : List String) :
    List PhenomenonInfo :=
  locations.flatMap fun lc =>
    (g.xbEdges.filter (fun e => strContains e.2 lc)).map
      (fun e => ⟨e.1, 0.8, "related_location", lc⟩)

/-- `KnowledgeGraphEngine.get_alarm_phenomena`: `XJ` edges whose alarm
title contains the queried alarm, confidence 0.9. -/
def getAlarmPhenomena (g : KnowledgeGraph) (alarms : List String) :
    List PhenomenonInfo :=
  alarms.flatMap fun a =>
    (g.xjEdges.filter (fun e => strContains e.2 a)).map
      (fun e => ⟨e.1, 0.9, "related_alarm", a⟩)

/-- Contents of the fault elements of one type, the per-type grouping at
the start of `execute_reasoning_chain`. -/
def elementContents (faultElements : List FaultElement) (t : FaultType) :
    List String :=
  (faultElements.filter (fun e => e.elementType = t)).map (·.content)

/-- Step 1 of `execute_reasoning_chain`: direct causes from phenomena
(skipped when the phenomenon group is empty). -/
def directCausesPart (g : KnowledgeGraph) (phenomena : List String) :
    List CauseInfo :=
  if phenomena ≠ [] then getFaultCausesByPhenomena g phenomena else []

/-- Step 2 of `execute_reasoning_chain`: causes found through
operation-inferred phenomena, each confidence multiplied by 0.8. -/
def operationCausesPart (g : KnowledgeGraph) (operations : List String) :
    List CauseInfo :=
  if operations ≠ [] then
    (getFaultCausesByPhenomena g
        ((getRelatedPhenomenaByOperations g operations).map (·.phenomenon))).map
      (fun c => { c with confidence := c.confidence * 0.8 })
  else []

/-- Step 3 of `execute_reasoning_chain`: causes found through
location-related phenomena, each confidence multiplied by 0.7. -/
def locationCausesPart (g : KnowledgeGraph) (locations : List String) :
    List CauseInfo :=
  if locations ≠ [] then
    (getFaultCausesByPhenomena g
        ((getLocationPhenomena g locations).map (·.phenomenon))).map
      (fun c => { c with confidence := c.confidence * 0.7 })
  else []

/-- Step 4 of `execute_reasoning_chain`: causes found through
alarm-related phenomena, with no decay applied. -/
def alarmCausesPart (g : KnowledgeGraph) (alarms : List String) :
    List CauseInfo :=
  if alarms ≠ [] then
    getFaultCausesByPhenomena g
      ((getAlarmPhenomena g alarms).map (·.phenomenon))
  else []

/-- `KnowledgeGraphEngine.execute_reasoning_chain`: group the elements by
type and append the four per-group traversal results in source order. -/
def executeReasoningChain (g : KnowledgeGraph)
    (faultElements : List FaultElement) : ReasoningResult :=
  let operations := elementContents faultElements FaultType.operation
  let phenomena := elementContents faultElements FaultType.phenomenon
  let locations := elementContents faultElements FaultType.location
  let alarms := elementContents faultElements FaultType.alarm
  { causes :=
      directCausesPart g phenomena
      ++ operationCausesPart g operations
      ++ locationCausesPart g locations
      ++ alarmCausesPart g alarms,
    relatedPhenomena :=
      (if operations ≠ [] then getRelatedPhenomenaByOperations g operations
       else [])
      ++ (if locations ≠ [] then getLocationPhenomena g locations else [])
      ++ (if alarms ≠ [] then getAlarmPhenomena g alarms else []) }

/-! ## Text processing (`utils/text_processor.py`) and entity recognition
(`utils/entity_recognizer.py`)

Strings are processed as their character lists (Python `str` indexing is by
code point, as is `List Char`).  Python's regular expressions are embedded
as dedicated matchers for the two pattern shapes that occur in the
repository's dictionaries. -/

/-- Python's `\w` word-character class, restricted to the character ranges
occurring in this repository's dictionaries and inputs: ASCII
alphanumerics, the underscore and the CJK unified ideographs. -/
def pyIsWordChar (c : Char) : Bool :=
  c.isAlphanum || c = '_' || (0x4e00 ≤ c.toNat && c.toNat ≤ 0x9fff)

/-- The Chinese punctuation kept by `TextProcessor.clean_text`'s second
substitution. -/
def keptPunctuation : List Char :=
  ['。', '，', '！', '？', '；', '：', '“', '”', '‘', '’',
   '（', '）', '【', '】']

/-- Run-tracking recursion for `collapseWhitespace` (`inRun` records
whether the previous character was whitespace). -/
def collapseWhitespaceAux (inRun : Bool) : List Char → List Char
  | [] => []
  | c :: cs =>
      if c.isWhitespace then
        if inRun then collapseWhitespaceAux true cs
        else ' ' :: collapseWhitespaceAux true cs
      else c :: collapseWhitespaceAux false cs

/-- Replace each maximal run of whitespace with a single space character;
Python `re.sub(r'\s+', ' ', text)`. -/
def collapseWhitespace (l : List Char) : List Char :=
  collapseWhitespaceAux false l

/-- `TextProcessor.clean_text`: collapse whitespace runs, drop every
character that is not a word character, whitespace, a CJK ideograph or one
of the kept punctuation marks, and strip the ends. -/
def cleanText (text : String) : String :=
  let step1 := collapseWhitespace text.data
  let step2 := step1.filter fun c =>
    pyIsWordChar c || c.isWhitespace ||
    (0x4e00 ≤ c.toNat && c.toNat ≤ 0x9fff) || c ∈ keptPunctuation
  pyStrip (String.mk step2)

/-- The sentence delimiters of `TextProcessor.split_sentences`
(`[。！？；\n]+`). -/
def sentenceDelimiters : List Char := ['。', '！', '？', '；', '\n']

/-- Split a character list at every character satisfying the predicate. -/
def splitAtDelims (p : Char → Bool) : List Char → List (List Char)
  | [] => [[]]
  | c :: cs =>
      let rest := splitAtDelims p cs
      if p c then [] :: rest
      else match rest with
        | [] => [[c]]
        | r :: rs => (c :: r) :: rs

/-- `TextProcessor.split_sentences`: strip, split on delimiter runs, strip
each piece and drop the empty ones.  Splitting on every single delimiter
and dropping empty pieces coincides with splitting on delimiter runs. -/
def splitSentences (text : String) : List String :=
  ((splitAtDelims (· ∈ sentenceDelimiters) (pyStrip text).data).map
    (fun cs => pyStrip (String.mk cs))).filter (· ≠ "")

/-- `_extract_context` (identical in `TextProcessor` and
`EntityRecognizer`): the window of ten characters on both sides of the
first keyword occurrence, stripped. -/
def extractContext (text keyword : String) : String :=
  match findSubstrPos text.data keyword.data with
  | none => ""
  | some pos =>
      let start := pos - 10
      let stop := min text.data.length (pos + keyword.data.length + 10)
      pyStrip (String.mk ((text.data.drop start).take (stop - start)))

/-- The two regular-expression shapes of the rule dictionaries:
`window pre post alts` is `(.{0,pre})(alt₁|…)(.{0,post})` and
`alarmNum alts` is `(alt₁\d+|…)`. -/
inductive RulePattern where
  | window (pre post : Nat) (alts : List String)
  | alarmNum (alts : List String)
deriving DecidableEq, Repr

/-- First alternative (in alternation order) that is a prefix of `l`. -/
def firstAltAt (alts : List String) (l : List Char) : Option (List Char) :=
  alts.findSome? fun a => if a.data.isPrefixOf l then some a.data else none

/-- Greedy group-1 length for the `window` shape: the largest `g ≤ pre`
such that the `g` consumed characters contain no newline (`.` semantics)
and some alternative matches right after them.  Mirrors the backtracking
of Python's greedy `.{0,pre}`. -/
def windowPreLen (alts : List String) (l : List Char) : Nat → Option (Nat × List Char)
  | 0 => (firstAltAt alts l).map (fun a => (0, a))
  | g + 1 =>
      if (l.take (g + 1)).all (· ≠ '\n') then
        match firstAltAt alts (l.drop (g + 1)) with
        | some a => some (g + 1, a)
        | none => windowPreLen alts l g
      else windowPreLen alts l g

/-- Greedy group-3 length: up to `post` non-newline characters. -/
def windowPostLen (post : Nat) (l : List Char) : Nat :=
  ((l.take post).takeWhile (· ≠ '\n')).length

/-- Length of the match of a `RulePattern` starting at the head of `l`,
or `none` when no match starts here. -/
def matchLenAt : RulePattern → List Char → Option Nat
  | RulePattern.window pre post alts, l =>
      (windowPreLen alts l pre).map fun ga =>
        ga.1 + ga.2.length + windowPostLen post (l.drop (ga.1 + ga.2.length))
  | RulePattern.alarmNum alts, l =>
      alts.findSome? fun a =>
        if a.data.isPrefixOf l then
          let d := ((l.drop a.data.length).takeWhile Char.isDigit).length
          if 0 < d then some (a.data.length + d) else none
        else none

/-- Fuelled scanning loop of `pyFinditer`; every step consumes at least
one character of the text, so fuel `l.length + 1` never runs out. -/
def pyFinditerAux (matchAt : List Char → Option Nat) :
    Nat → List Char → Nat → List (Nat × Nat)
  | 0, _, _ => []
  | _ + 1, [], _ => []
  | fuel + 1, l@(_ :: rest), p =>
      match matchAt l with
      | some 0 => (p, 0) :: pyFinditerAux matchAt fuel rest (p + 1)
      | some (n + 1) =>
          (p, n + 1) :: pyFinditerAux matchAt fuel (rest.drop n) (p + (n + 1))
      | none => pyFinditerAux matchAt fuel rest (p + 1)

/-- Python `re.finditer`: repeatedly find the leftmost match from the
current scan position; a non-empty match resumes scanning at its end, an
empty match advances by one.  Returns the `(start, length)` pairs. -/
def pyFinditer (matchAt : List Char → Option Nat) (text : List Char) :
    List (Nat × Nat) :=
  pyFinditerAux matchAt (text.length + 1) text 0

/-- A rule-dictionary entry: one fault type with its keywords and its
single regular-expression pattern. -/
structure FaultPatternCfg where
  ftype : FaultType
  keywords : List String
  pattern : RulePattern
deriving Repr

/-- The rule dictionaries, identical in `TextProcessor.fault_patterns` and
`EntityRecognizer.fallback_patterns`, in insertion order. -/
def faultPatterns : List FaultPatternCfg :=
  [⟨FaultType.operation,
    ["启动", "停止", "运行", "操作", "按下", "开启", "关闭", "切换", "调整", "自动换刀"],
    RulePattern.window 5 5
      ["启动", "停止", "运行", "操作", "按下", "开启", "关闭", "切换", "调整", "自动换刀"]⟩,
   ⟨FaultType.phenomenon,
    ["报警", "异响", "振动", "温度高", "不工作", "故障", "错误", "停止", "卡住", "不到位"],
    RulePattern.window 5 5
      ["报警", "异响", "振动", "温度高", "不工作", "故障", "错误", "停止", "卡住", "不到位"]⟩,
   ⟨FaultType.location,
    ["主轴", "刀库", "伺服", "液压", "电机", "轴承", "丝杠", "导轨", "控制器", "刀链"],
    RulePattern.window 3 3
      ["主轴", "刀库", "伺服", "液压", "电机", "轴承", "丝杠", "导轨", "控制器", "刀链"]⟩,
   ⟨FaultType.alarm,
    ["ALM", "ALARM", "警报", "报警码"],
    RulePattern.alarmNum ["ALM", "ALARM", "警报", "报警码"]⟩]

/-- The keyword half of `_extract_with_rules`: for each keyword contained
in the text, one element whose content is the stripped ten-character
context window and whose position is the first keyword occurrence. -/
def keywordElements (conf : ℚ) (text : String) (cfg : FaultPatternCfg) :
    List FaultElement :=
  cfg.keywords.filterMap fun kw =>
    match findSubstrPos text.data kw.data with
    | none => none
    | some pos =>
        let ctx := extractContext text kw
        if ctx ≠ "" then some ⟨ctx, cfg.ftype, conf, some (pos : Int)⟩
        else none

/-- The regex half of `_extract_with_rules`: one element per `finditer`
match, content the stripped match text, position the match start. -/
def regexElements (conf : ℚ) (text : String) (cfg : FaultPatternCfg) :
    List FaultElement :=
  (pyFinditer (matchLenAt cfg.pattern) text.data).map fun pn =>
    ⟨pyStrip (String.mk ((text.data.drop pn.1).take pn.2)), cfg.ftype, conf,
     some (pn.1 : Int)⟩

/-- Accumulator recursion for `deduplicateElements` (the `seen` set). -/
def deduplicateElementsAux :
    List FaultElement → List (String × FaultType) → List FaultElement
  | [], _ => []
  | e :: es, seen =>
      if (e.content, e.elementType) ∈ seen then deduplicateElementsAux es seen
      else e :: deduplicateElementsAux es ((e.content, e.elementType) :: seen)

/-- `TextProcessor._deduplicate_elements`: keep the first element for each
exact `(content, element_type)` pair. -/
def deduplicateElements (elements : List FaultElement) : List FaultElement :=
  deduplicateElementsAux elements []

/-- Sort key of `TextProcessor._extract_with_rules`
(`x.position if x.position else 0`: both `None` and `0` are falsy and map
to 0, so the key is the position with default 0). -/
def positionKey (e : FaultElement) : Int := e.position.getD 0

/-- `TextProcessor._extract_with_rules`: keyword elements (confidence 0.8)
and regex elements (confidence 0.9) per pattern entry, deduplicated by
exact `(content, type)` and stably sorted by position. -/
def extractWithRulesTP (text : String) : List FaultElement :=
  let elements := faultPatterns.flatMap fun cfg =>
    keywordElements 0.8 text cfg ++ regexElements 0.9 text cfg
  pySorted (fun a b => decide (positionKey a ≤ positionKey b))
    (deduplicateElements elements)

/-- `EntityRecognizer._extract_with_rules`: the same scan with confidences
0.7 (keyword) and 0.8 (regex) and no deduplication or sorting. -/
def extractWithRulesER (text : String) : List FaultElement :=
  faultPatterns.flatMap fun cfg =>
    keywordElements 0.7 text cfg ++ regexElements 0.8 text cfg

/-- One entity of the external NER service's response
(`{'name': ..., 'type': ..., 'start_pos': ..., 'end_pos': ...}`). -/
structure NerEntity where
  name : String
  etype : String
  startPos : Int
deriving DecidableEq, Repr

/-- `EntityRecognizer.entity_type_mapping` as a lookup with the source's
default `FaultType.PHENOMENON` for unknown types. -/
def entityTypeMapping (etype : String) : FaultType :=
  if etype = "部件单元" ∨ etype = "COMPONENT" then FaultType.location
  else if etype = "性能表征" ∨ etype = "PERFORMANCE" then FaultType.phenomenon
  else if etype = "故障状态" ∨ etype = "FAULT_STATE" then FaultType.phenomenon
  else if etype = "检测工具" ∨ etype = "DETECTION_TOOL" then FaultType.location
  else FaultType.phenomenon

/-- `EntityRecognizer._extract_with_ner_service` result parsing: each
returned entity becomes an element with confidence 0.9 at its start
position. -/
def nerToElements (entities : List NerEntity) : List FaultElement :=
  entities.map fun ent =>
    ⟨ent.name, entityTypeMapping ent.etype, 0.9, some ent.startPos⟩

/-- Accumulator recursion for `mergeElements` (`existing_contents` set). -/
def mergeElementsAux :
    List FaultElement → List String → List FaultElement
  | [], _ => []
  | e :: es, seen =>
      if pyLower e.content ∈ seen then mergeElementsAux es seen
      else e :: mergeElementsAux es (pyLower e.content :: seen)

/-- `EntityRecognizer._merge_elements`: append the rule elements whose
lower-cased content does not collide with an already present element. -/
def mergeElements (nerElements ruleElements : List FaultElement) :
    List FaultElement :=
  nerElements ++
    mergeElementsAux ruleElements (nerElements.map (fun e => pyLower e.content))

/-- Lower-cased deduplication key of `_post_process_elements`. -/
def lowerKey (e : FaultElement) : String × FaultType :=
  (pyLower e.content, e.elementType)

/-- Accumulator recursion for the first step of `_post_process_elements`. -/
def dedupLowerAux :
    List FaultElement → List (String × FaultType) → List FaultElement
  | [], _ => []
  | e :: es, seen =>
      if lowerKey e ∈ seen then dedupLowerAux es seen
      else e :: dedupLowerAux es (lowerKey e :: seen)

/-- Sort key of `_post_process_elements`
(`x.position if x.position is not None else 0`). -/
def positionKeyPP (e : FaultElement) : Int := e.position.getD 0

/-- `EntityRecognizer._post_process_elements`: deduplicate by lower-cased
`(content, type)`, drop contents whose stripped length is below two, sort
stably by position, and when more than fifteen remain keep the fifteen of
highest confidence (stable descending sort) and re-sort those by
position. -/
def postProcessElements (elements : List FaultElement) : List FaultElement :=
  if elements = [] then elements
  else
    let unique := dedupLowerAux elements []
    let filtered := unique.filter fun e => 2 ≤ (pyStrip e.content).length
    let sorted := pySorted
      (fun a b => decide (positionKeyPP a ≤ positionKeyPP b)) filtered
    if 15 < sorted.length then
      let byConf := pySorted
        (fun a b => decide (b.confidence ≤ a.confidence)) sorted
      pySorted (fun a b => decide (positionKeyPP a ≤ positionKeyPP b))
        (byConf.take 15)
    else sorted

/-- `EntityRecognizer.extract_entities`.  The external service is an
explicit oracle: `avail` is `self.service_available` and `response` is the
parsed entity list of the service call, `none` modelling a call that
raises (which flips the availability flag).  When the service is
unavailable or produced fewer than three elements, rule-matched elements
are merged in; the result is always post-processed. -/
def extractEntities (avail : Bool) (response : Option (List NerEntity))
    (text : String) : List FaultElement :=
  let availAndElements :=
    if avail then
      match response with
      | some r => (true, nerToElements r)
      | none => (false, ([] : List FaultElement))
    else (avail, [])
  let elements :=
    if availAndElements.1 = false ∨ availAndElements.2.length < 3 then
      mergeElements availAndElements.2 (extractWithRulesER text)
    else availAndElements.2
  postProcessElements elements

/-- `TextProcessor.extract_fault_elements`: with entity recognition enabled
(and the recognizer constructed) the recognizer's extraction is used;
otherwise the rule-based extraction.  The recognizer never raises in this
embedding, so the source's exception fallback to the rules is covered by
`nerEnabled = false`. -/
def extractFaultElements (nerEnabled : Bool) (avail : Bool)
    (response : Option (List NerEntity)) (text : String) :
    List FaultElement :=
  if nerEnabled then extractEntities avail response text
  else extractWithRulesTP text

/-! ## Similarity matcher (`core/similarity_matcher.py`)

The `TfidfVectorizer(max_features=1000, ngram_range=(1,2), min_df=1,
max_df=0.95)` of scikit-learn is embedded as follows: the analyzer
lower-cases and tokenizes by the `\w\w+` word pattern, features are
unigrams plus bigrams, a fit records the corpus size, the alphabetically
sorted pruned vocabulary and the per-term document frequencies, and a fit
raises (modelled by `none`) when the vocabulary is empty, when
`max_df * n < min_df` (every one-document corpus) or when pruning leaves
no term.  The stored case-vector matrix is represented by the integer
term-count matrix; the idf weighting and the l2 normalization that
`transform` applies are folded into `cosineSim`, which cosine similarity
is invariant under, so the composition agrees with
`cosine_similarity(query, case_vectors)` in the source. -/

/-- Accumulator recursion for `wordRuns`: `cur` is the reversed current
run of characters satisfying `p`. -/
def wordRunsAux (p : Char → Bool) (cur : List Char) :
    List Char → List (List Char)
  | [] => if cur = [] then [] else [cur.reverse]
  | c :: cs =>
      if p c then wordRunsAux p (c :: cur) cs
      else if cur = [] then wordRunsAux p [] cs
      else cur.reverse :: wordRunsAux p [] cs

/-- Maximal runs of characters satisfying `p` (the `\w\w+` tokenizer's run
structure). -/
def wordRuns (p : Char → Bool) (l : List Char) : List (List Char) :=
  wordRunsAux p [] l

/-- The scikit-learn analyzer's token stream: lower-case, split into
maximal word-character runs, keep the runs of length at least two. -/
def sklearnTokens (doc : String) : List String :=
  ((wordRuns pyIsWordChar (pyLower doc).data).filter
    (fun r => 2 ≤ r.length)).map String.mk

/-- Adjacent-token bigrams, joined by a single space. -/
def bigramsOf : List String → List String
  | a :: b :: rest => (a ++ " " ++ b) :: bigramsOf (b :: rest)
  | _ => []

/-- Features of one document under `ngram_range=(1, 2)`: unigrams followed
by bigrams. -/
def docFeatures (doc : String) : List String :=
  sklearnTokens doc ++ bigramsOf (sklearnTokens doc)

/-- The fitted state of the TF-IDF vectorizer: corpus size, sorted
vocabulary and aligned document frequencies. -/
structure Vectorizer where
  nDocs : ℕ
  vocab : List String
  docFreq : List ℕ
deriving DecidableEq, Repr

/-- Document frequency of a term over the feature lists. -/
def docFreqOf (featLists : List (List String)) (t : String) : ℕ :=
  (featLists.filter (fun fl => t ∈ fl)).length

/-- Total occurrence count of a term over the feature lists (scikit-learn's
term frequency used by the `max_features` cut). -/
def totalFreqOf (featLists : List (List String)) (t : String) : ℕ :=
  (featLists.map (fun fl => fl.count t)).sum

/-- Lexicographic comparison of character lists by code point, the order
Python uses on `str` (and by which scikit-learn sorts feature names). -/
def charListLe : List Char → List Char → Bool
  | [], _ => true
  | _ :: _, [] => false
  | a :: as, b :: bs =>
      if a.toNat < b.toNat then true
      else if b.toNat < a.toNat then false
      else charListLe as bs

/-- `TfidfVectorizer.fit_transform` on the corpus documents: build the
sorted vocabulary, prune by `min_df=1`/`max_df=0.95`, apply the
`max_features=1000` cut (highest total frequency first; scikit-learn's
order among equal frequencies is unspecified and never reached in this
development), and return the fitted vectorizer with the term-count
matrix.  `none` models the `ValueError`s raised for an empty vocabulary,
for `max_df` below `min_df` (any one-document corpus) and for pruning
that removes every term.  The float comparisons `0.95 * n < 1` and
`df <= 0.95 * n` of `_limit_features` are written over the integers as
`19 * n < 20` and `20 * df ≤ 19 * n`, which decide identically (`df` and
`n` are integers, and the float64 rounding of `0.95` moves the bound by
less than `10⁻¹⁵ · n`, which never crosses an integer that `19n/20` does
not itself reach). -/
def fitVectorizer (docs : List String) :
    Option (Vectorizer × List (List ℕ)) :=
  let n := docs.length
  let featLists := docs.map docFeatures
  let allFeats := pySorted (fun a b => charListLe a.data b.data)
    (dedupKeepFirst featLists.flatten)
  if allFeats = [] then none
  else if 19 * n < 20 then none
  else
    let kept := allFeats.filter
      (fun t => 20 * docFreqOf featLists t ≤ 19 * n)
    let kept :=
      if kept.length ≤ 1000 then kept
      else pySorted (fun a b => charListLe a.data b.data)
        ((pySorted (fun a b =>
            decide (totalFreqOf featLists b ≤ totalFreqOf featLists a))
          kept).take 1000)
    if kept = [] then none
    else
      let v : Vectorizer := ⟨n, kept, kept.map (docFreqOf featLists)⟩
      some (v, featLists.map (fun fl => kept.map (fun t => fl.count t)))

/-- The term-count vector of one document under a fitted vectorizer
(`vectorizer.transform([doc])` before idf weighting and normalization). -/
def countsFor (v : Vectorizer) (doc : String) : List ℕ :=
  v.vocab.map (fun t => (docFeatures doc).count t)

/-- The Python `self.vectorizer` object: `TfidfVectorizer()` is assigned
before `fit_transform` runs, so after a failed fit the field holds an
unfitted vectorizer object (no longer `None`), whose later `transform`
raises `NotFittedError`. -/
inductive VectorizerObj where
  | unfitted
  | fitted (v : Vectorizer)
deriving DecidableEq, Repr

/-- The mutable state of `SimilarityMatcher`: the case corpus, the
vectorizer object and the case-vector matrix. -/
structure Matcher where
  cases : List SimilarCase
  vectorizer : Option VectorizerObj
  caseVectors : Option (List (List ℕ))
deriving DecidableEq, Repr

/-- The indexed document of one case in `_build_vectors`: description and
element contents joined and cleaned. -/
def caseDocument (c : SimilarCase) : String :=
  cleanText (String.intercalate " " (c.description :: c.elements.map (·.content)))

/-- `SimilarityMatcher._build_vectors`: an empty corpus returns
immediately; with no vectorizer a fresh one is fitted on the whole corpus
(a failure is caught, leaving the unfitted object behind); with a fitted
vectorizer the matrix is recomputed by `transform` over the whole corpus
without refitting; with an unfitted object the `transform` raises and the
caught failure changes nothing. -/
def buildVectors (m : Matcher) : Matcher :=
  if m.cases = [] then m
  else
    let docs := m.cases.map caseDocument
    match m.vectorizer with
    | none =>
        match fitVectorizer docs with
        | some vX =>
            { m with vectorizer := some (VectorizerObj.fitted vX.1),
                     caseVectors := some vX.2 }
        | none => { m with vectorizer := some VectorizerObj.unfitted }
    | some (VectorizerObj.fitted v) =>
        { m with caseVectors := some (docs.map (countsFor v)) }
    | some VectorizerObj.unfitted => m

/-- `SimilarityMatcher.add_case`: append the case, then rebuild. -/
def addCase (m : Matcher) (c : SimilarCase) : Matcher :=
  buildVectors { m with cases := m.cases ++ [c] }

/-- Building the matcher state over a corpus from scratch (a fresh
`SimilarityMatcher` whose corpus is `cases`, vectorized once). -/
def matcherFromScratch (cases : List SimilarCase) : Matcher :=
  buildVectors ⟨cases, none, none⟩

/-- The combined query document of `find_similar_cases`: fault
description, related phenomena and the truthy equipment fields, joined and
cleaned. -/
def queryDocument (q : UserQuery) : String :=
  cleanText (String.intercalate " "
    (q.faultDescription :: q.relatedPhenomena
     ++ (if pyTruthy q.equipmentInfo.brand then [q.equipmentInfo.brand.getD ""]
         else [])
     ++ (if pyTruthy q.equipmentInfo.model then [q.equipmentInfo.model.getD ""]
         else [])
     ++ (if pyTruthy q.equipmentInfo.errorCode then
           [q.equipmentInfo.errorCode.getD ""]
         else [])))

/-- The idf factor of vocabulary slot `i` under `smooth_idf=True`:
`ln((1 + n) / (1 + df)) + 1`. -/
noncomputable def idfR (v : Vectorizer) (i : ℕ) : ℝ :=
  Real.log ((1 + v.nDocs) / (1 + (v.docFreq.getD i 0 : ℝ))) + 1

/-- Inner product of two count vectors after idf weighting. -/
noncomputable def tfidfDot (v : Vectorizer) (a b : List ℕ) : ℝ :=
  ∑ i ∈ Finset.range v.vocab.length,
    ((a.getD i 0 : ℝ) * idfR v i) * ((b.getD i 0 : ℝ) * idfR v i)

/-- Cosine similarity of two count vectors under the fitted vectorizer:
the idf weighting of `transform` and the l2 normalizations (of `transform`
and of `cosine_similarity`) are composed here; a zero vector yields 0 (in
the source its norm-guarded normalization leaves the zero vector, whose
inner products vanish; here division by the zero norm yields 0). -/
noncomputable def cosineSim (v : Vectorizer) (a b : List ℕ) : ℝ :=
  tfidfDot v a b / (Real.sqrt (tfidfDot v a a) * Real.sqrt (tfidfDot v b b))

/-- Boolean comparison on `ℝ` for the embedding of `np.argsort` (the
source compares floating-point similarities). -/
noncomputable def rle (a b : ℝ) : Bool :=
  @decide (a ≤ b) (Classical.propDecidable _)

/-- `np.argsort(similarities)[::-1]`: indices sorted by ascending
similarity, reversed.  NumPy's order among equal values is unspecified;
the stable ascending sort is one admissible resolution. -/
noncomputable def argsortDesc (sims : List ℝ) : List ℕ :=
  (pySorted (fun i j => rle (sims.getD i 0) (sims.getD j 0))
    (List.range sims.length)).reverse

/-- The result rows of `find_similar_cases`: the source copies the matched
`SimilarCase` and overwrites its `similarity` with the query-relative
cosine value; that value is real-valued here, so the copy is carried in
its own record. -/
structure RankedCase where
  caseId : String
  description : String
  similarity : ℝ
  elements : List FaultElement
  solution : String

/-- `SimilarityMatcher.find_similar_cases`: guard on the empty corpus, a
missing vectorizer object or a missing matrix; an unfitted vectorizer
object makes the query transform raise, which the handler turns into `[]`;
otherwise compare the query counts against every case vector, walk the
descending-similarity index order truncated to `top_k`, and keep the cases
reaching `min_similarity`. -/
noncomputable def findSimilarCases (m : Matcher) (q : UserQuery)
    (topK : ℕ) (minSim : ℚ) : List RankedCase :=
  if m.cases = [] then []
  else
    match m.vectorizer, m.caseVectors with
    | none, _ => []
    | _, none => []
    | some VectorizerObj.unfitted, some _ => []
    | some (VectorizerObj.fitted v), some caseVecs =>
        let qv := countsFor v (queryDocument q)
        let sims := caseVecs.map (fun cv => cosineSim v qv cv)
        ((argsortDesc sims).take topK).filterMap fun i =>
          if rle (minSim : ℝ) (sims.getD i 0) then
            match m.cases.get? i with
            | some c =>
                some ⟨c.caseId, c.description, sims.getD i 0, c.elements,
                      c.solution⟩
            | none => none
          else none

/-- The `top_k` value `FaultAnalyzer.analyze_fault` passes to
`find_similar_cases`. -/
def analyzeFaultTopK : ℕ := 5

/-- The `min_similarity` value `FaultAnalyzer.analyze_fault` passes to
`find_similar_cases`. -/
def analyzeFaultMinSimilarity : ℚ := 0.1

/-! ## Feedback loop (`core/fault_analyzer.py`) -/

/-- The new case built by `FaultAnalyzer._add_successful_case`: a fresh
uuid (an oracle here), the query's fault description, stored similarity
1.0, the re-extracted fault elements and the chosen solution. -/
def newSuccessfulCase (newCaseId : String) (nerEnabled avail : Bool)
    (response : Option (List NerEntity)) (q : UserQuery)
    (solution : String) : SimilarCase :=
  { caseId := newCaseId, description := q.faultDescription, similarity := 1,
    elements := extractFaultElements nerEnabled avail response
      q.faultDescription,
    solution := solution }

/-- `FaultAnalyzer.add_user_feedback` restricted to its effect on the
matcher state: the recommender's `add_user_feedback` only logs, and
`_add_successful_case` runs exactly when the effectiveness score reaches
0.8, appending one case through `add_case`. -/
def addUserFeedback (newCaseId : String) (nerEnabled avail : Bool)
    (response : Option (List NerEntity)) (m : Matcher) (q : UserQuery)
    (chosenSolution : String) (effectivenessScore : ℚ) : Matcher :=
  if 0.8 ≤ effectivenessScore then
    addCase m (newSuccessfulCase newCaseId nerEnabled avail response q
      chosenSolution)
  else m

/-! ## General lemmas about the embedding's primitives -/

theorem pyInsert_perm {α : Type} (le : α → α → Bool) (x : α) (l : List α) :
    (pyInsert le x l).Perm (x :: l) := by
  induction l with
  | nil => simp [pyInsert]
  | cons y ys ih =>
      by_cases h : le x y
      · simp [pyInsert, h]
      · simp only [pyInsert, h, if_neg, Bool.false_eq_true, if_false]
        exact ((ih.cons y).trans (List.Perm.swap x y ys)).symm.symm

theorem pySorted_perm {α : Type} (le : α → α → Bool) (l : List α) :
    (pySorted le l).Perm l := by
  induction l with
  | nil => simp [pySorted]
  | cons x xs ih =>
      exact (pyInsert_perm le x (pySorted le xs)).trans (ih.cons x)

theorem pySorted_length {α : Type} (le : α → α → Bool) (l : List α) :
    (pySorted le l).length = l.length :=
  (pySorted_perm le l).length_eq

theorem pySorted_mem {α : Type} {le : α → α → Bool} {x : α} {l : List α} :
    x ∈ pySorted le l ↔ x ∈ l :=
  (pySorted_perm le l).mem_iff

theorem pyInsert_pairwise {α : Type} {le : α → α → Bool}
    (htrans : ∀ a b c, le a b = true → le b c = true → le a c = true)
    (htot : ∀ a b, le a b = true ∨ le b a = true) {x : α} {l : List α}
    (hl : l.Pairwise (fun a b => le a b = true)) :
    (pyInsert le x l).Pairwise (fun a b => le a b = true) := by
  induction l with
  | nil => simp [pyInsert]
  | cons y ys ih =>
      rcases List.pairwise_cons.mp hl with ⟨hy, hys⟩
      by_cases h : le x y
      · simp only [pyInsert, h, if_true]
        refine List.pairwise_cons.mpr ⟨?_, hl⟩
        intro b hb
        rcases List.mem_cons.mp hb with hb | hb
        · exact hb ▸ h
        · exact htrans x y b h (hy b hb)
      · simp only [pyInsert, h, Bool.false_eq_true, if_false]
        refine List.pairwise_cons.mpr ⟨?_, ih hys⟩
        intro b hb
        rcases List.mem_cons.mp ((pyInsert_perm le x ys).mem_iff.mp hb) with
          hb | hb
        · rcases htot x y with hxy | hyx
          · exact absurd hxy h
          · simpa [hb] using hyx
        · exact hy b hb

theorem pySorted_pairwise {α : Type} {le : α → α → Bool}
    (htrans : ∀ a b c, le a b = true → le b c = true → le a c = true)
    (htot : ∀ a b, le a b = true ∨ le b a = true) (l : List α) :
    (pySorted le l).Pairwise (fun a b => le a b = true) := by
  induction l with
  | nil => simp [pySorted]
  | cons x xs ih => exact pyInsert_pairwise htrans htot ih

theorem dedupKeepFirstAux_subset {α : Type} [DecidableEq α] {x : α} :
    ∀ {l seen : List α}, x ∈ dedupKeepFirstAux l seen → x ∈ l := by
  intro l
  induction l with
  | nil => intro seen h; simp [dedupKeepFirstAux] at h
  | cons y ys ih =>
      intro seen h
      by_cases hy : y ∈ seen
      · simp only [dedupKeepFirstAux, hy, if_true] at h
        exact List.mem_cons_of_mem y (ih h)
      · simp only [dedupKeepFirstAux, hy, if_false] at h
        rcases List.mem_cons.mp h with h | h
        · exact h ▸ List.mem_cons_self y ys
        · exact List.mem_cons_of_mem y (ih h)

theorem dedupKeepFirst_subset {α : Type} [DecidableEq α] {x : α}
    {l : List α} (h : x ∈ dedupKeepFirst l) : x ∈ l :=
  dedupKeepFirstAux_subset h

/-- The keys of `dedupLowerAux l seen` avoid `seen` and are pairwise
distinct. -/
theorem dedupLowerAux_key_pairwise :
    ∀ (l : List FaultElement) (seen : List (String × FaultType)),
      (∀ e ∈ dedupLowerAux l seen, lowerKey e ∉ seen) ∧
      (dedupLowerAux l seen).Pairwise (fun a b => lowerKey a ≠ lowerKey b) := by
  intro l
  induction l with
  | nil => intro seen; simp [dedupLowerAux]
  | cons e es ih =>
      intro seen
      by_cases he : lowerKey e ∈ seen
      · simpa [dedupLowerAux, he] using ih seen
      · simp only [dedupLowerAux, he, if_false]
        rcases ih (lowerKey e :: seen) with ⟨hnotin, hpw⟩
        refine ⟨?_, ?_⟩
        · intro a ha
          rcases List.mem_cons.mp ha with ha | ha
          · exact ha ▸ he
          · intro hcontra
            exact hnotin a ha (List.mem_cons_of_mem _ hcontra)
        · refine List.pairwise_cons.mpr ⟨?_, hpw⟩
          intro a ha hak
          exact hnotin a ha (hak ▸ List.mem_cons_self _ _)

/-- The exact `(content, type)` keys of `deduplicateElementsAux l seen`
avoid `seen` and are pairwise distinct. -/
theorem deduplicateElementsAux_key_pairwise :
    ∀ (l : List FaultElement) (seen : List (String × FaultType)),
      (∀ e ∈ deduplicateElementsAux l seen,
        (e.content, e.elementType) ∉ seen) ∧
      (deduplicateElementsAux l seen).Pairwise
        (fun a b => (a.content, a.elementType) ≠ (b.content, b.elementType)) := by
  intro l
  induction l with
  | nil => intro seen; simp [deduplicateElementsAux]
  | cons e es ih =>
      intro seen
      by_cases he : (e.content, e.elementType) ∈ seen
      · simpa [deduplicateElementsAux, he] using ih seen
      · simp only [deduplicateElementsAux, he, if_false]
        rcases ih ((e.content, e.elementType) :: seen) with ⟨hnotin, hpw⟩
        refine ⟨?_, ?_⟩
        · intro a ha
          rcases List.mem_cons.mp ha with ha | ha
          · exact ha ▸ he
          · intro hcontra
            exact hnotin a ha (List.mem_cons_of_mem _ hcontra)
        · refine List.pairwise_cons.mpr ⟨?_, hpw⟩
          intro a ha hak
          exact hnotin a ha (hak ▸ List.mem_cons_self _ _)

/-- `_build_vectors` never touches the case corpus itself. -/
theorem buildVectors_cases (m : Matcher) : (buildVectors m).cases = m.cases := by
  obtain ⟨cs, vec, cvs⟩ := m
  unfold buildVectors
  by_cases h : cs = []
  · simp [h]
  · rcases vec with _ | obj
    · cases hfit : fitVectorizer (cs.map caseDocument) <;> simp [h, hfit]
    · rcases obj with _ | v <;> simp [h]

theorem pySample_length {α : Type} :
    ∀ (k : ℕ) (xs : List α) (draws : ℕ → ℕ),
      (pySample xs k draws).length = min k xs.length := by
  intro k
  induction k with
  | zero => intro xs draws; simp [pySample]
  | succ k ih =>
      intro xs draws
      by_cases h : 0 < xs.length
      · simp only [pySample, h, dif_pos, List.length_cons]
        rw [ih]
        have : (xs.eraseIdx (draws 0 % xs.length)).length = xs.length - 1 :=
          List.length_eraseIdx_of_lt (Nat.mod_lt _ h)
        rw [this]
        omega
      · unfold pySample
        rw [dif_neg h]
        simp only [List.length_nil]
        omega

theorem pySample_subset {α : Type} :
    ∀ (k : ℕ) (xs : List α) (draws : ℕ → ℕ) (x : α),
      x ∈ pySample xs k draws → x ∈ xs := by
  intro k
  induction k with
  | zero => intro xs draws x h; simp [pySample] at h
  | succ k ih =>
      intro xs draws x h
      by_cases hx : 0 < xs.length
      · simp only [pySample, hx, dif_pos] at h
        rcases List.mem_cons.mp h with h | h
        · exact h ▸ List.get_mem xs _ _
        · exact (List.eraseIdx_sublist xs _).mem (ih _ _ _ h)
      · simp [pySample, hx] at h

/-! ## Claim C1 — overall confidence formula -/

/-- C1 (counterexample): at one graph cause of confidence 1 and one similar
case of similarity 1 the claimed confidence `0.6 × 1 + 0.4 × 1 = 1`
differs from the value `_calculate_confidence` computes: the code divides
the sum of the weighted factors by their number, giving `0.5`. -/
theorem claim_C1_counterexample :
    calculateConfidence ⟨[⟨"主轴故障", 1, "p"⟩], []⟩ [⟨"cid", "d", 1, [], "s"⟩]
        = 1 / 2
      ∧ calculateConfidence ⟨[⟨"主轴故障", 1, "p"⟩], []⟩
          [⟨"cid", "d", 1, [], "s"⟩] ≠ 0.6 * 1 + 0.4 * 1 := by
  constructor
  · norm_num [calculateConfidence]
    simp
  · norm_num [calculateConfidence]
    simp

/-- C1 (amended): the confidence is the plain average of the present
weighted factors — `0.6 × avg(graph confidences)` and `0.4 × avg(case
similarities)` — so it equals the single weighted factor when exactly one
evidence source is non-empty, half the claimed weighted sum when both are
present, and exactly 0.1 when both are empty. -/
theorem claim_C1_amended (kg : ReasoningResult) (cases : List SimilarCase) :
    (kg.causes = [] → cases = [] → calculateConfidence kg cases = 0.1)
    ∧ (kg.causes ≠ [] → cases = [] →
        calculateConfidence kg cases =
          (kg.causes.map (·.confidence)).sum / kg.causes.length * 0.6)
    ∧ (kg.causes = [] → cases ≠ [] →
        calculateConfidence kg cases =
          (cases.map (·.similarity)).sum / cases.length * 0.4)
    ∧ (kg.causes ≠ [] → cases ≠ [] →
        calculateConfidence kg cases =
          ((kg.causes.map (·.confidence)).sum / kg.causes.length * 0.6
            + (cases.map (·.similarity)).sum / cases.length * 0.4) / 2) := by
  refine ⟨?_, ?_, ?_, ?_⟩
  · intro h1 h2; simp [calculateConfidence, h1, h2]
  · intro h1 h2; simp [calculateConfidence, h1, h2]
  · intro h1 h2; simp [calculateConfidence, h1, h2]
  · intro h1 h2
    simp only [calculateConfidence, h1, h2, ne_eq, not_false_iff, if_true,
      ite_not]
    simp only [List.singleton_append]
    rw [if_neg (List.cons_ne_nil _ _)]
    simp only [List.sum_cons, List.sum_nil, List.length_cons, List.length_nil]
    push_cast
    ring

/-- C1 (witness): the amended formula applied to one graph cause of
confidence 1 and one case of similarity 1 gives 0.5. -/
theorem claim_C1_witness :
    calculateConfidence ⟨[⟨"主轴故障", 1, "p"⟩], []⟩ [⟨"cid", "d", 1, [], "s"⟩]
      = (((1 : ℚ) / 1 * 0.6) + ((1 : ℚ) / 1 * 0.4)) / 2 := by
  have h := (claim_C1_amended ⟨[⟨"主轴故障", 1, "p"⟩], []⟩
    [⟨"cid", "d", 1, [], "s"⟩]).2.2.2 (by simp) (by simp)
  simpa using h

/-! ## Claim C7 — error fallback of `generate_recommendations` -/

/-- C7 (counterexample): the fallback `DiagnosisResult` of the `except`
branch has causes `["分析失败"]`, confidence 0 and empty reasoning path,
similar cases and recommendations as claimed, but its solutions list is
the non-empty `["请联系技术支持"]`, not empty. -/
theorem claim_C7_counterexample :
    recommendOnError.causes = ["分析失败"] ∧ recommendOnError.confidence = 0
    ∧ recommendOnError.reasoningPath = [] ∧ recommendOnError.similarCases = []
    ∧ recommendOnError.recommendations = []
    ∧ recommendOnError.solutions = ["请联系技术支持"]
    ∧ recommendOnError.solutions ≠ [] := by
  refine ⟨rfl, rfl, rfl, rfl, rfl, rfl, ?_⟩
  decide

/-- C7 (amended): any failure of the aggregation body is converted by the
handler into the fixed minimal result — causes `["分析失败"]`, the single
fallback solution `["请联系技术支持"]`, confidence 0.0 and empty reasoning
path, similar cases and recommendations — and a normal result passes
through unchanged, so the caller never observes an exception. -/
theorem claim_C7_amended :
    (∀ e : String, handleRecommendFailure (Except.error e) = recommendOnError)
    ∧ recommendOnError =
        ⟨["分析失败"], ["请联系技术支持"], 0, [], [], []⟩
    ∧ (∀ r : DiagnosisResult, handleRecommendFailure (Except.ok r) = r) :=
  ⟨fun _ => rfl, rfl, fun _ => rfl⟩

/-! ## Claim C8 — feedback threshold and the case corpus -/

/-- C8: feedback with effectiveness below 0.8 leaves the case corpus
unchanged; feedback at or above 0.8 appends exactly the one new successful
case built from the query. -/
theorem claim_C8_feedback (newCaseId : String) (nerEnabled avail : Bool)
    (response : Option (List NerEntity)) (m : Matcher) (q : UserQuery)
    (chosenSolution : String) (score : ℚ) :
    (score < 0.8 →
      (addUserFeedback newCaseId nerEnabled avail response m q
        chosenSolution score).cases = m.cases)
    ∧ (0.8 ≤ score →
      (addUserFeedback newCaseId nerEnabled avail response m q
        chosenSolution score).cases
        = m.cases ++ [newSuccessfulCase newCaseId nerEnabled avail response q
            chosenSolution]) := by
  constructor
  · intro h
    rw [addUserFeedback, if_neg (not_le.mpr h)]
  · intro h
    rw [addUserFeedback, if_pos h, addCase, buildVectors_cases]

/-- C8 (witness): on the empty corpus, feedback 0.5 keeps the corpus empty
and feedback 1.0 appends exactly one case. -/
theorem claim_C8_witness :
    (addUserFeedback "id-1" false false none ⟨[], none, none⟩
      ⟨⟨none, none, none⟩, "主轴异响", [], none⟩ "更换轴承" 0.5).cases = []
    ∧ (addUserFeedback "id-1" false false none ⟨[], none, none⟩
      ⟨⟨none, none, none⟩, "主轴异响", [], none⟩ "更换轴承" 1).cases
      = [] ++ [newSuccessfulCase "id-1" false false none
          ⟨⟨none, none, none⟩, "主轴异响", [], none⟩ "更换轴承"] :=
  ⟨(claim_C8_feedback "id-1" false false none ⟨[], none, none⟩
      ⟨⟨none, none, none⟩, "主轴异响", [], none⟩ "更换轴承" 0.5).1 (by norm_num),
   (claim_C8_feedback "id-1" false false none ⟨[], none, none⟩
      ⟨⟨none, none, none⟩, "主轴异响", [], none⟩ "更换轴承" 1).2 (by norm_num)⟩

/-! ## Claim C2 — `add_case` versus a from-scratch rebuild -/

/-- A two-token corpus case used for the index-rebuild counterexample. -/
def exCaseA : SimilarCase := ⟨"case-a", "aa bb", 1, [], "solution a"⟩

/-- Second corpus case. -/
def exCaseB : SimilarCase := ⟨"case-b", "cc dd", 1, [], "solution b"⟩

/-- Third case, added after the first fit; its tokens are new. -/
def exCaseC : SimilarCase := ⟨"case-c", "ee ff", 1, [], "solution c"⟩

/-- C2 (counterexample): after fitting on `[exCaseA, exCaseB]`, adding
`exCaseC` leaves the vectorizer fitted on the old two-document corpus
(six terms, `nDocs = 2`), while the from-scratch build over the same
three-case corpus fits nine terms with `nDocs = 3` — the index is not a
function of the current corpus alone. -/
theorem claim_C2_counterexample :
    (addCase (matcherFromScratch [exCaseA, exCaseB]) exCaseC).cases
        = [exCaseA, exCaseB, exCaseC]
    ∧ (addCase (matcherFromScratch [exCaseA, exCaseB]) exCaseC).vectorizer
        ≠ (matcherFromScratch [exCaseA, exCaseB, exCaseC]).vectorizer := by
  exact ⟨by decide, by decide⟩

/-- C2 (amended): `add_case` appends the case and recomputes the stored
case-vector matrix over the whole new corpus, but only an absent
vectorizer is ever (re)fitted: starting from no vectorizer the result is
exactly the from-scratch build, while an already fitted vectorizer is
reused unchanged (`transform` only) and an unfitted leftover object keeps
the state as it was — so the index generally depends on the corpus at the
time of the first successful fit, not on the current corpus alone. -/
theorem claim_C2_amended (m : Matcher) (c : SimilarCase) :
    ((addCase m c).cases = m.cases ++ [c])
    ∧ (m.vectorizer = none → m.caseVectors = none →
        addCase m c = matcherFromScratch (m.cases ++ [c]))
    ∧ (∀ v, m.vectorizer = some (VectorizerObj.fitted v) →
        (addCase m c).vectorizer = some (VectorizerObj.fitted v)
        ∧ (addCase m c).caseVectors
            = some (((m.cases ++ [c]).map caseDocument).map (countsFor v)))
    ∧ (m.vectorizer = some VectorizerObj.unfitted →
        (addCase m c).vectorizer = some VectorizerObj.unfitted
        ∧ (addCase m c).caseVectors = m.caseVectors) := by
  obtain ⟨cs, vec, cvs⟩ := m
  have hne : cs ++ [c] ≠ [] := by simp
  refine ⟨buildVectors_cases _, ?_, ?_, ?_⟩
  · intro h1 h2
    simp only at h1 h2
    subst h1; subst h2
    rfl
  · intro v hv
    simp only at hv
    subst hv
    constructor
    · simp [addCase, buildVectors, hne]
    · simp [addCase, buildVectors, hne]
  · intro hv
    simp only at hv
    subst hv
    constructor
    · simp [addCase, buildVectors, hne]
    · simp [addCase, buildVectors, hne]

/-- C2 (witness): adding to a fresh empty matcher coincides with the
from-scratch build over the one-case corpus. -/
theorem claim_C2_witness :
    addCase ⟨[], none, none⟩ exCaseA = matcherFromScratch [exCaseA] :=
  (claim_C2_amended ⟨[], none, none⟩ exCaseA).2.1 rfl rfl

/-! ## Claim C9 — identical query against an indexed case -/

/-- A query whose combined text is verbatim the indexed document of
`exCaseA`. -/
def exQuery9 : UserQuery := ⟨⟨none, none, none⟩, "aa bb", [], none⟩

/-- C9 (counterexample): over the one-case corpus `[exCaseA]` the fit
raises (`max_df = 0.95` of one document is below `min_df = 1`), the caught
failure leaves an unfitted vectorizer and no case-vector matrix, and
`find_similar_cases` returns `[]`: the identical query is not returned
with similarity 1.0 (nor at all). -/
theorem claim_C9_counterexample :
    queryDocument exQuery9 = caseDocument exCaseA
    ∧ findSimilarCases (matcherFromScratch [exCaseA]) exQuery9 5 0.1 = []
    ∧ ¬ ∃ r ∈ findSimilarCases (matcherFromScratch [exCaseA]) exQuery9 5 0.1,
        r.caseId = exCaseA.caseId ∧ |r.similarity - 1| ≤ 1 / 1000000 := by
  have hM : matcherFromScratch [exCaseA]
      = ⟨[exCaseA], some VectorizerObj.unfitted, none⟩ := by decide
  have hEmpty :
      findSimilarCases (matcherFromScratch [exCaseA]) exQuery9 5 0.1 = [] := by
    rw [hM]; rfl
  refine ⟨by decide, hEmpty, ?_⟩
  rw [hEmpty]
  simp

/-- The idf factor is positive whenever the recorded document frequencies
do not exceed the corpus size. -/
theorem idfR_pos (v : Vectorizer) (hdf : ∀ d ∈ v.docFreq, d ≤ v.nDocs)
    (i : ℕ) : 0 < idfR v i := by
  have hd : (v.docFreq.getD i 0 : ℝ) ≤ (v.nDocs : ℝ) := by
    by_cases hi : i < v.docFreq.length
    · refine Nat.cast_le.mpr (hdf _ ?_)
      rw [List.getD_eq_getElem v.docFreq 0 hi]
      exact v.docFreq.getElem_mem hi
    · rw [List.getD_eq_default _ _ (not_lt.mp hi)]
      exact_mod_cast Nat.zero_le _
  have hq : (1 : ℝ) ≤ (1 + v.nDocs) / (1 + (v.docFreq.getD i 0 : ℝ)) := by
    rw [le_div_iff₀ (by positivity)]
    linarith
  have := Real.log_nonneg hq
  unfold idfR
  linarith

/-- C9 (amended): while the index was never successfully built the matcher
returns `[]`; and under a fitted vectorizer whose document frequencies are
bounded by the corpus size, a query whose counts coincide with a case's
count vector that is not entirely zero has cosine similarity exactly 1
(hence within any tolerance). -/
theorem claim_C9_amended :
    (∀ (m : Matcher) (q : UserQuery) (topK : ℕ) (minSim : ℚ),
        m.caseVectors = none → findSimilarCases m q topK minSim = [])
    ∧ (∀ (v : Vectorizer) (q : UserQuery) (counts : List ℕ),
        countsFor v (queryDocument q) = counts →
        (∀ d ∈ v.docFreq, d ≤ v.nDocs) →
        ((List.range v.vocab.length).any fun i =>
          decide (counts.getD i 0 ≠ 0)) = true →
        cosineSim v (countsFor v (queryDocument q)) counts = 1) := by
  constructor
  · intro m q topK minSim h
    obtain ⟨cs, vec, cvs⟩ := m
    simp only at h
    subst h
    rcases vec with _ | obj
    · by_cases hcs : cs = [] <;> simp [findSimilarCases, hcs]
    · rcases obj with _ | v <;> by_cases hcs : cs = [] <;>
        simp [findSimilarCases, hcs]
  · intro v q counts hq hdf hnz
    rw [hq]
    have hDpos : 0 < tfidfDot v counts counts := by
      obtain ⟨i, hi, hp⟩ := List.any_eq_true.mp hnz
      have hine : counts.getD i 0 ≠ 0 := of_decide_eq_true hp
      unfold tfidfDot
      apply Finset.sum_pos'
      · intro j _
        exact mul_self_nonneg _
      · refine ⟨i, Finset.mem_range.mpr (List.mem_range.mp hi), ?_⟩
        have hc : 0 < (counts.getD i 0 : ℝ) := by
          exact_mod_cast Nat.pos_of_ne_zero hine
        have hidf := idfR_pos v hdf i
        positivity
    unfold cosineSim
    rw [Real.mul_self_sqrt hDpos.le, div_self hDpos.ne']

/-- C9 (witness): under the vectorizer fitted on the two-document corpus
`["aa bb", "cc dd"]`, the query `"aa bb"` has exactly the first case's
count vector and cosine similarity exactly 1 against it. -/
theorem claim_C9_witness :
    cosineSim ⟨2, ["aa", "aa bb", "bb", "cc", "cc dd", "dd"],
        [1, 1, 1, 1, 1, 1]⟩
      (countsFor ⟨2, ["aa", "aa bb", "bb", "cc", "cc dd", "dd"],
        [1, 1, 1, 1, 1, 1]⟩ (queryDocument exQuery9))
      [1, 1, 1, 0, 0, 0] = 1 :=
  claim_C9_amended.2 ⟨2, ["aa", "aa bb", "bb", "cc", "cc dd", "dd"],
      [1, 1, 1, 1, 1, 1]⟩ exQuery9 [1, 1, 1, 0, 0, 0]
    (by decide) (by decide) (by decide)

/-! ## Claim C5 — per-path confidence decay in `execute_reasoning_chain` -/

/-- Every row of `get_fault_causes_by_phenomena` carries the store
confidence 1.0 (direct `XY`) or 0.8 (`XX` then `XY`). -/
theorem getFaultCauses_confidence (g : KnowledgeGraph) (ps : List String) :
    ∀ c ∈ getFaultCausesByPhenomena g ps,
      c.confidence = 1 ∨ c.confidence = 0.8 := by
  intro c hc
  unfold getFaultCausesByPhenomena at hc
  obtain ⟨p, _, hc⟩ := List.mem_flatMap.mp hc
  obtain ⟨r, hr, rfl⟩ := List.mem_map.mp hc
  have hr' := dedupKeepFirst_subset hr
  rcases List.mem_append.mp hr' with h | h
  · obtain ⟨e, _, he⟩ := List.mem_map.mp h
    left
    rw [← he]
  · obtain ⟨e1, _, h1⟩ := List.mem_flatMap.mp h
    obtain ⟨e, _, he⟩ := List.mem_map.mp h1
    right
    rw [← he]

/-- C5: the causes of the reasoning chain are exactly the four per-group
parts in source order; direct-phenomenon and alarm rows keep the store
confidence (1.0 or 0.8), operation rows are that confidence times 0.8 and
location rows times 0.7; consequently, an entry for a cause reached
directly never has lower confidence than an entry for the same cause
reached through an operation-inferred phenomenon. -/
theorem claim_C5_decay (g : KnowledgeGraph)
    (faultElements : List FaultElement) :
    ((executeReasoningChain g faultElements).causes
      = directCausesPart g (elementContents faultElements FaultType.phenomenon)
        ++ operationCausesPart g
            (elementContents faultElements FaultType.operation)
        ++ locationCausesPart g
            (elementContents faultElements FaultType.location)
        ++ alarmCausesPart g (elementContents faultElements FaultType.alarm))
    ∧ (∀ c ∈ directCausesPart g
          (elementContents faultElements FaultType.phenomenon),
        c.confidence = 1 ∨ c.confidence = 0.8)
    ∧ (∀ c ∈ operationCausesPart g
          (elementContents faultElements FaultType.operation),
        c.confidence = 1 * 0.8 ∨ c.confidence = 0.8 * 0.8)
    ∧ (∀ c ∈ locationCausesPart g
          (elementContents faultElements FaultType.location),
        c.confidence = 1 * 0.7 ∨ c.confidence = 0.8 * 0.7)
    ∧ (∀ c ∈ alarmCausesPart g
          (elementContents faultElements FaultType.alarm),
        c.confidence = 1 ∨ c.confidence = 0.8)
    ∧ (∀ c₁ c₂ : CauseInfo,
        c₁ ∈ directCausesPart g
          (elementContents faultElements FaultType.phenomenon) →
        c₂ ∈ operationCausesPart g
          (elementContents faultElements FaultType.operation) →
        c₁.cause = c₂.cause → c₂.confidence ≤ c₁.confidence) := by
  have hop : ∀ c ∈ operationCausesPart g
      (elementContents faultElements FaultType.operation),
      c.confidence = 1 * 0.8 ∨ c.confidence = 0.8 * 0.8 := by
    intro c hc
    unfold operationCausesPart at hc
    by_cases h : elementContents faultElements FaultType.operation = []
    · simp [h] at hc
    · simp only [h, ne_eq, not_false_iff, if_true] at hc
      obtain ⟨c0, hc0, rfl⟩ := List.mem_map.mp hc
      rcases getFaultCauses_confidence g _ c0 hc0 with h0 | h0 <;>
        simp [h0]
  have hdir : ∀ c ∈ directCausesPart g
      (elementContents faultElements FaultType.phenomenon),
      c.confidence = 1 ∨ c.confidence = 0.8 := by
    intro c hc
    unfold directCausesPart at hc
    by_cases h : elementContents faultElements FaultType.phenomenon = []
    · simp [h] at hc
    · simp only [h, ne_eq, not_false_iff, if_true] at hc
      exact getFaultCauses_confidence g _ c hc
  refine ⟨rfl, hdir, hop, ?_, ?_, ?_⟩
  · intro c hc
    unfold locationCausesPart at hc
    by_cases h : elementContents faultElements FaultType.location = []
    · simp [h] at hc
    · simp only [h, ne_eq, not_false_iff, if_true] at hc
      obtain ⟨c0, hc0, rfl⟩ := List.mem_map.mp hc
      rcases getFaultCauses_confidence g _ c0 hc0 with h0 | h0 <;>
        simp [h0]
  · intro c hc
    unfold alarmCausesPart at hc
    by_cases h : elementContents faultElements FaultType.alarm = []
    · simp [h] at hc
    · simp only [h, ne_eq, not_false_iff, if_true] at hc
      exact getFaultCauses_confidence g _ c hc
  · intro c₁ c₂ h1 h2 _
    rcases hdir c₁ h1 with hd | hd <;> rcases hop c₂ h2 with ho | ho <;>
      rw [hd, ho] <;> norm_num

/-- Concrete graph for the C5 witness: the operation node `启动后主轴`
leads to phenomenon `P`, which has the direct cause `C`. -/
def exGraph5 : KnowledgeGraph :=
  ⟨[("启动后主轴", "P")], [("P", "C")], [], [], []⟩

/-- Concrete elements for the C5 witness: one operation (`启动`) and the
phenomenon `P` itself. -/
def exElements5 : List FaultElement :=
  [⟨"启动", FaultType.operation, 1, some 0⟩,
   ⟨"P", FaultType.phenomenon, 1, some 3⟩]

/-- C5 (witness): on `exGraph5` the cause `C` appears both directly (base
confidence 1) and through the operation path (confidence `1 * 0.8`), and
the decay ordering of `claim_C5_decay` yields `1 * 0.8 ≤ 1`. -/
theorem claim_C5_witness :
    (⟨"C", 1, "P"⟩ : CauseInfo)
        ∈ directCausesPart exGraph5
            (elementContents exElements5 FaultType.phenomenon)
    ∧ (⟨"C", 1 * 0.8, "P"⟩ : CauseInfo)
        ∈ operationCausesPart exGraph5
            (elementContents exElements5 FaultType.operation)
    ∧ (⟨"C", 1 * 0.8, "P"⟩ : CauseInfo).confidence
        ≤ (⟨"C", (1 : ℚ), "P"⟩ : CauseInfo).confidence := by
  have h1 : (⟨"C", 1, "P"⟩ : CauseInfo)
      ∈ directCausesPart exGraph5
          (elementContents exElements5 FaultType.phenomenon) := by
    show _ ∈ directCausesPart exGraph5 ["P"]
    exact List.mem_singleton.mpr rfl
  have h2 : (⟨"C", 1 * 0.8, "P"⟩ : CauseInfo)
      ∈ operationCausesPart exGraph5
          (elementContents exElements5 FaultType.operation) := by
    show _ ∈ operationCausesPart exGraph5 ["启动"]
    exact List.mem_singleton.mpr rfl
  exact ⟨h1, h2,
    (claim_C5_decay exGraph5 exElements5).2.2.2.2.2 _ _ h1 h2 rfl⟩

/-! ## Claim C4 — size of the returned `similar_cases` list -/

/-- C4 (counterexample): `generate_recommendations` copies its
`similar_cases` argument into the result unchanged; `analyze_fault`
requests `top_k = 5` matches, so four matched cases (a possible matcher
output) yield a `DiagnosisResult` whose `similar_cases` has four entries,
not at most three. -/
theorem claim_C4_counterexample :
    (generateRecommendations ⟨false⟩ (fun _ => 0) ⟨[], []⟩
      [⟨"1", "d", 0.2, [], ""⟩, ⟨"2", "d", 0.2, [], ""⟩,
       ⟨"3", "d", 0.2, [], ""⟩, ⟨"4", "d", 0.2, [], ""⟩]
      ⟨⟨none, none, none⟩, "x", [], none⟩ []).similarCases.length = 4
    ∧ ¬ ((generateRecommendations ⟨false⟩ (fun _ => 0) ⟨[], []⟩
      [⟨"1", "d", 0.2, [], ""⟩, ⟨"2", "d", 0.2, [], ""⟩,
       ⟨"3", "d", 0.2, [], ""⟩, ⟨"4", "d", 0.2, [], ""⟩]
      ⟨⟨none, none, none⟩, "x", [], none⟩ []).similarCases.length ≤ 3) := by
  exact ⟨by decide, by decide⟩

/-- C4 (amended): the result's `similar_cases` equals the matcher's output
verbatim (only the reasoning path truncates to three), and that output is
bounded by `top_k`, which `analyze_fault` fixes at 5 — so a diagnosis
returns at most five similar cases, not three. -/
theorem claim_C4_amended :
    (∀ (cfg : RecommenderCfg) (draws : ℕ → ℕ) (kg : ReasoningResult)
        (cases : List SimilarCase) (q : UserQuery)
        (elems : List FaultElement),
      (generateRecommendations cfg draws kg cases q elems).similarCases
        = cases)
    ∧ (∀ (m : Matcher) (q : UserQuery) (topK : ℕ) (minSim : ℚ),
        (findSimilarCases m q topK minSim).length ≤ topK)
    ∧ analyzeFaultTopK = 5 := by
  refine ⟨fun _ _ _ _ _ _ => rfl, ?_, rfl⟩
  intro m q topK minSim
  obtain ⟨cs, vec, cvs⟩ := m
  by_cases hcs : cs = []
  · simp [findSimilarCases, hcs]
  · rcases vec with _ | obj
    · simp [findSimilarCases, hcs]
    · rcases cvs with _ | X
      · rcases obj with _ | v <;> simp [findSimilarCases, hcs]
      · rcases obj with _ | v
        · simp [findSimilarCases, hcs]
        · simp only [findSimilarCases, hcs, if_false]
          calc (((argsortDesc _).take topK).filterMap _).length
              ≤ ((argsortDesc _).take topK).length :=
                List.length_filterMap_le _ _
            _ ≤ topK := List.length_take_le _ _

/-! ## Claims C3 and C10 — solutions cap and the mock web-search
supplement -/

/-- When web search is enabled and the computed confidence is below 0.7,
the returned solutions are the aggregated ones followed by the online
supplement. -/
theorem genRec_solutions_web (cfg : RecommenderCfg) (draws : ℕ → ℕ)
    (kg : ReasoningResult) (cases : List SimilarCase) (q : UserQuery)
    (elems : List FaultElement)
    (h : cfg.enableWebSearch ∧ calculateConfidence kg cases < 0.7) :
    (generateRecommendations cfg draws kg cases q elems).solutions
      = generateSolutions (integrateCauses kg cases) q elems
        ++ searchOnlineSolutions cfg draws q := by
  unfold generateRecommendations
  dsimp only
  rw [if_pos h]

/-- Otherwise the returned solutions are the aggregated ones alone. -/
theorem genRec_solutions_noweb (cfg : RecommenderCfg) (draws : ℕ → ℕ)
    (kg : ReasoningResult) (cases : List SimilarCase) (q : UserQuery)
    (elems : List FaultElement)
    (h : ¬ (cfg.enableWebSearch ∧ calculateConfidence kg cases < 0.7)) :
    (generateRecommendations cfg draws kg cases q elems).solutions
      = generateSolutions (integrateCauses kg cases) q elems := by
  unfold generateRecommendations
  dsimp only
  rw [if_neg h]

/-- The online supplement, when enabled, has exactly `randint(1, 3)`
entries. -/
theorem searchOnline_length (draws : ℕ → ℕ) (q : UserQuery) :
    (searchOnlineSolutions ⟨true⟩ draws q).length = 1 + draws 0 % 3 := by
  unfold searchOnlineSolutions mockWebSearch
  dsimp only
  rw [if_neg (by simp)]
  rw [pySample_length]
  show min (pyRandint 1 (min 3 4) (draws 0)) 4 = 1 + draws 0 % 3
  unfold pyRandint
  rw [show ((min 3 4) + 1 - 1 : ℕ) = 3 from rfl]
  have hm : draws 0 % 3 < 3 := Nat.mod_lt _ (by norm_num)
  omega

/-- A single graph cause whose text contains three solution-database
category names, driving ten aggregated solutions at low confidence. -/
def exKg3 : ReasoningResult :=
  ⟨[⟨"电机故障液压系统故障数控系统故障", 0.5, "p"⟩], []⟩

/-- A minimal query with no equipment information. -/
def exQuery3 : UserQuery := ⟨⟨none, none, none⟩, "x", [], none⟩

/-- C3 (counterexample): with web search enabled (the default), confidence
0.3 and a cause generating ten aggregated solutions, the randomness oracle
delivering three mock results makes the returned solutions list thirteen
entries long — the ≤ 10 cap holds only before the web supplement. -/
theorem claim_C3_counterexample :
    (generateRecommendations ⟨true⟩ (fun _ => 2) exKg3 [] exQuery3
      []).solutions.length = 13
    ∧ ¬ ((generateRecommendations ⟨true⟩ (fun _ => 2) exKg3 [] exQuery3
      []).solutions.length ≤ 10) := by
  have hconf : calculateConfidence exKg3 [] = 0.3 := by
    simp [calculateConfidence, exKg3]
    norm_num
  have hs := genRec_solutions_web ⟨true⟩ (fun _ => 2) exKg3 [] exQuery3 []
    ⟨rfl, by rw [hconf]; norm_num⟩
  have h1 : (generateSolutions (integrateCauses exKg3 []) exQuery3
      []).length = 10 := by decide
  have h2 : (searchOnlineSolutions ⟨true⟩ (fun _ => 2) exQuery3).length
      = 3 := by decide
  rw [hs, List.length_append, h1, h2]
  omega

/-- C3 (amended): the solutions list of every diagnosis holds at most 13
entries — at most ten from aggregation plus at most three web-search
supplements — and at most ten whenever web search is disabled or the
confidence reaches 0.7. -/
theorem claim_C3_amended (cfg : RecommenderCfg) (draws : ℕ → ℕ)
    (kg : ReasoningResult) (cases : List SimilarCase) (q : UserQuery)
    (elems : List FaultElement) :
    (generateRecommendations cfg draws kg cases q elems).solutions.length
      ≤ 13
    ∧ ((cfg.enableWebSearch = false ∨
        ¬ (calculateConfidence kg cases < 0.7)) →
      (generateRecommendations cfg draws kg cases q
        elems).solutions.length ≤ 10) := by
  have hgen : (generateSolutions (integrateCauses kg cases) q
      elems).length ≤ 10 := by
    unfold generateSolutions
    dsimp only
    exact List.length_take_le _ _
  have hweb : (searchOnlineSolutions cfg draws q).length ≤ 3 := by
    rcases cfg with ⟨b⟩
    cases b
    · simp [searchOnlineSolutions]
    · rw [searchOnline_length]
      have hm : draws 0 % 3 < 3 := Nat.mod_lt _ (by norm_num)
      omega
  constructor
  · by_cases h : cfg.enableWebSearch ∧ calculateConfidence kg cases < 0.7
    · rw [genRec_solutions_web _ _ _ _ _ _ h, List.length_append]
      omega
    · rw [genRec_solutions_noweb _ _ _ _ _ _ h]
      omega
  · intro hor
    have h : ¬ (cfg.enableWebSearch ∧ calculateConfidence kg cases < 0.7) := by
      rcases hor with h | h
      · intro hc
        rw [h] at hc
        exact absurd hc.1 (by simp)
      · intro hc
        exact h hc.2
    rw [genRec_solutions_noweb _ _ _ _ _ _ h]
    omega

/-- C3 (witness): with web search disabled the amended bound of ten holds
at the counterexample inputs. -/
theorem claim_C3_witness :
    (generateRecommendations ⟨false⟩ (fun _ => 2) exKg3 [] exQuery3
      []).solutions.length ≤ 10 :=
  (claim_C3_amended ⟨false⟩ (fun _ => 2) exKg3 [] exQuery3 []).2
    (Or.inl rfl)

/-- C10: with web search enabled and confidence below 0.7, the diagnosis
appends between one and three strings drawn from the fixed four-entry mock
list (the randomness oracle standing for Python's `random`), and two runs
of the identical query under different oracle draws return different
results. -/
theorem claim_C10_mock :
    (∀ (draws : ℕ → ℕ) (kg : ReasoningResult) (cases : List SimilarCase)
        (q : UserQuery) (elems : List FaultElement),
      calculateConfidence kg cases < 0.7 →
      ∃ web : List String,
        (generateRecommendations ⟨true⟩ draws kg cases q elems).solutions
          = generateSolutions (integrateCauses kg cases) q elems ++ web
        ∧ 1 ≤ web.length ∧ web.length ≤ 3
        ∧ ∀ s ∈ web, s ∈ mockResults)
    ∧ mockResults.length = 4
    ∧ generateRecommendations ⟨true⟩ (fun _ => 0) ⟨[], []⟩ [] exQuery3 []
        ≠ generateRecommendations ⟨true⟩ (fun _ => 1) ⟨[], []⟩ [] exQuery3
            [] := by
  refine ⟨?_, rfl, ?_⟩
  · intro draws kg cases q elems h
    refine ⟨searchOnlineSolutions ⟨true⟩ draws q,
      genRec_solutions_web _ _ _ _ _ _ ⟨rfl, h⟩, ?_, ?_, ?_⟩
    · rw [searchOnline_length]
      omega
    · rw [searchOnline_length]
      have hm : draws 0 % 3 < 3 := Nat.mod_lt _ (by norm_num)
      omega
    · intro s hs
      unfold searchOnlineSolutions mockWebSearch at hs
      rw [if_neg (by simp)] at hs
      exact pySample_subset _ _ _ _ hs
  · intro hcontra
    have h0 : calculateConfidence (⟨[], []⟩ : ReasoningResult) [] = 0.1 := by
      simp [calculateConfidence]
    have ha := genRec_solutions_web ⟨true⟩ (fun _ => 0) ⟨[], []⟩ [] exQuery3
      [] ⟨rfl, by rw [h0]; norm_num⟩
    have hb := genRec_solutions_web ⟨true⟩ (fun _ => 1) ⟨[], []⟩ [] exQuery3
      [] ⟨rfl, by rw [h0]; norm_num⟩
    have hsol := congrArg DiagnosisResult.solutions hcontra
    rw [ha, hb] at hsol
    have hw := List.append_cancel_left hsol
    exact absurd hw (by decide)

/-- C10 (witness): one concrete low-confidence run with the all-zero
oracle returns the aggregated solutions plus a supplement of one to three
mock entries. -/
theorem claim_C10_witness :
    ∃ web : List String,
      (generateRecommendations ⟨true⟩ (fun _ => 0) ⟨[], []⟩ [] exQuery3
        []).solutions
        = generateSolutions (integrateCauses ⟨[], []⟩ []) exQuery3 [] ++ web
      ∧ 1 ≤ web.length ∧ web.length ≤ 3
      ∧ ∀ s ∈ web, s ∈ mockResults :=
  claim_C10_mock.1 (fun _ => 0) ⟨[], []⟩ [] exQuery3 []
    (by simp [calculateConfidence]; norm_num)

/-! ## Claim C6 — shape of the fault-element extraction output -/

/-- The shape the claim asserts of every extraction result: at most 15
elements, stripped contents of length at least two, no two elements with
the same lower-cased `(content, type)` key, ascending position order. -/
def extractionClaimP (l : List FaultElement) : Prop :=
  l.length ≤ 15
  ∧ (∀ e ∈ l, 2 ≤ (pyStrip e.content).length)
  ∧ l.Pairwise (fun a b => lowerKey a ≠ lowerKey b)
  ∧ l.Pairwise (fun a b => positionKeyPP a ≤ positionKeyPP b)

/-- The boolean position comparison is transitive. -/
theorem posPP_trans : ∀ a b c : FaultElement,
    decide (positionKeyPP a ≤ positionKeyPP b) = true →
    decide (positionKeyPP b ≤ positionKeyPP c) = true →
    decide (positionKeyPP a ≤ positionKeyPP c) = true := by
  intro a b c hab hbc
  simp only [decide_eq_true_eq] at hab hbc ⊢
  omega

/-- The boolean position comparison is total. -/
theorem posPP_total : ∀ a b : FaultElement,
    decide (positionKeyPP a ≤ positionKeyPP b) = true ∨
    decide (positionKeyPP b ≤ positionKeyPP a) = true := by
  intro a b
  simp only [decide_eq_true_eq]
  exact le_total _ _

/-- `_post_process_elements` always produces a list of the claimed
shape. -/
theorem postProcess_claimP (elements : List FaultElement) :
    extractionClaimP (postProcessElements elements) := by
  unfold postProcessElements
  by_cases h : elements = []
  · simp only [h, if_pos]
    exact ⟨by simp, by simp, by simp, by simp⟩
  · rw [if_neg h]
    have hpw_u := (dedupLowerAux_key_pairwise elements []).2
    have hpw_f : (List.filter (fun e => 2 ≤ (pyStrip e.content).length)
        (dedupLowerAux elements [])).Pairwise
          (fun a b => lowerKey a ≠ lowerKey b) :=
      List.Pairwise.sublist (List.filter_sublist _) hpw_u
    have hmem_f : ∀ e ∈ List.filter
        (fun e => 2 ≤ (pyStrip e.content).length)
        (dedupLowerAux elements []), 2 ≤ (pyStrip e.content).length := by
      intro e he
      have := (List.mem_filter.mp he).2
      exact of_decide_eq_true this
    have hperm_s := pySorted_perm
      (fun a b => decide (positionKeyPP a ≤ positionKeyPP b))
      (List.filter (fun e => 2 ≤ (pyStrip e.content).length)
        (dedupLowerAux elements []))
    have hkey_symm : ∀ {x y : FaultElement},
        lowerKey x ≠ lowerKey y → lowerKey y ≠ lowerKey x :=
      fun hxy => hxy.symm
    have hpw_s := (hperm_s.pairwise_iff hkey_symm).mpr hpw_f
    have hsorted_s := pySorted_pairwise posPP_trans posPP_total
      (List.filter (fun e => 2 ≤ (pyStrip e.content).length)
        (dedupLowerAux elements []))
    by_cases hlen : 15 < (pySorted
        (fun a b => decide (positionKeyPP a ≤ positionKeyPP b))
        (List.filter (fun e => 2 ≤ (pyStrip e.content).length)
          (dedupLowerAux elements []))).length
    · rw [if_pos hlen]
      have hperm_c := pySorted_perm
        (fun a b => decide (b.confidence ≤ a.confidence))
        (pySorted (fun a b => decide (positionKeyPP a ≤ positionKeyPP b))
          (List.filter (fun e => 2 ≤ (pyStrip e.content).length)
            (dedupLowerAux elements [])))
      have hperm_fin := pySorted_perm
        (fun a b => decide (positionKeyPP a ≤ positionKeyPP b))
        ((pySorted (fun a b => decide (b.confidence ≤ a.confidence))
          (pySorted (fun a b => decide (positionKeyPP a ≤ positionKeyPP b))
            (List.filter (fun e => 2 ≤ (pyStrip e.content).length)
              (dedupLowerAux elements [])))).take 15)
      refine ⟨?_, ?_, ?_, ?_⟩
      · rw [hperm_fin.length_eq]
        exact le_trans (List.length_take_le _ _) le_rfl
      · intro e he
        have he1 := hperm_fin.mem_iff.mp he
        have he2 := (List.take_sublist _ _).mem he1
        have he3 := hperm_c.mem_iff.mp he2
        have he4 := hperm_s.mem_iff.mp he3
        exact hmem_f e he4
      · have hpw_c := (hperm_c.pairwise_iff hkey_symm).mpr hpw_s
        have hpw_t : ((pySorted
            (fun a b => decide (b.confidence ≤ a.confidence))
            (pySorted (fun a b => decide (positionKeyPP a ≤ positionKeyPP b))
              (List.filter (fun e => 2 ≤ (pyStrip e.content).length)
                (dedupLowerAux elements [])))).take 15).Pairwise
            (fun a b => lowerKey a ≠ lowerKey b) :=
          List.Pairwise.sublist (List.take_sublist _ _) hpw_c
        exact (hperm_fin.pairwise_iff hkey_symm).mpr hpw_t
      · have := pySorted_pairwise posPP_trans posPP_total
          ((pySorted (fun a b => decide (b.confidence ≤ a.confidence))
            (pySorted (fun a b => decide (positionKeyPP a ≤ positionKeyPP b))
              (List.filter (fun e => 2 ≤ (pyStrip e.content).length)
                (dedupLowerAux elements [])))).take 15)
        exact this.imp (fun hab => of_decide_eq_true hab)
    · rw [if_neg hlen]
      refine ⟨by omega, ?_, hpw_s, ?_⟩
      · intro e he
        exact hmem_f e (hperm_s.mem_iff.mp he)
      · exact hsorted_s.imp (fun hab => of_decide_eq_true hab)

/-- `extract_entities` post-processes whatever it gathered, so its output
always has the claimed shape. -/
theorem extractEntities_claimP (avail : Bool)
    (response : Option (List NerEntity)) (text : String) :
    extractionClaimP (extractEntities avail response text) := by
  unfold extractEntities
  dsimp only
  exact postProcess_claimP _

/-- The text driving the C6 counterexample: sixteen rule keywords in one
sentence. -/
def ex6Text : String :=
  "主轴 刀库 伺服 液压 电机 轴承 丝杠 导轨 控制器 刀链 报警 异响 振动 故障 错误 卡住"

/-- C6 (counterexample): with entity recognition disabled (or failed to
construct), `extract_fault_elements` uses `TextProcessor._extract_with_rules`,
which neither caps at fifteen elements nor filters or lower-cases — on
`ex6Text` it returns 23 elements, so the claimed shape fails. -/
theorem claim_C6_counterexample :
    (extractFaultElements false false none ex6Text).length = 23
    ∧ ¬ extractionClaimP (extractFaultElements false false none ex6Text) := by
  have hlen : (extractFaultElements false false none ex6Text).length = 23 := by
    decide
  refine ⟨hlen, ?_⟩
  intro h
  have := h.1
  rw [hlen] at this
  omega

/-- C6 (amended): with entity recognition enabled the extraction output is
post-processed and has the claimed shape (cap 15, stripped length ≥ 2,
lower-cased key deduplication, ascending positions); with it disabled the
rule-based path guarantees only exact `(content, type)` deduplication and
ascending position order, with no cap and no length filter. -/
theorem claim_C6_amended :
    (∀ (avail : Bool) (response : Option (List NerEntity)) (text : String),
      extractionClaimP (extractFaultElements true avail response text))
    ∧ (∀ (avail : Bool) (response : Option (List NerEntity)) (text : String),
      (extractFaultElements false avail response text).Pairwise
        (fun a b => (a.content, a.elementType) ≠ (b.content, b.elementType))
      ∧ (extractFaultElements false avail response text).Pairwise
        (fun a b => positionKey a ≤ positionKey b)) := by
  constructor
  · intro avail response text
    exact extractEntities_claimP avail response text
  · intro avail response text
    show (extractWithRulesTP text).Pairwise _ ∧ (extractWithRulesTP text).Pairwise _
    constructor
    · unfold extractWithRulesTP
      dsimp only
      have hpw := (deduplicateElementsAux_key_pairwise
        (faultPatterns.flatMap fun cfg =>
          keywordElements 0.8 text cfg ++ regexElements 0.9 text cfg) []).2
      have hperm := pySorted_perm
        (fun a b => decide (positionKey a ≤ positionKey b))
        (deduplicateElements
          (faultPatterns.flatMap fun cfg =>
            keywordElements 0.8 text cfg ++ regexElements 0.9 text cfg))
      exact (hperm.pairwise_iff (fun hxy => hxy.symm)).mpr hpw
    · unfold extractWithRulesTP
      dsimp only
      have htrans : ∀ a b c : FaultElement,
          decide (positionKey a ≤ positionKey b) = true →
          decide (positionKey b ≤ positionKey c) = true →
          decide (positionKey a ≤ positionKey c) = true := by
        intro a b c hab hbc
        simp only [decide_eq_true_eq] at hab hbc ⊢
        omega
      have htot : ∀ a b : FaultElement,
          decide (positionKey a ≤ positionKey b) = true ∨
          decide (positionKey b ≤ positionKey a) = true := by
        intro a b
        simp only [decide_eq_true_eq]
        exact le_total _ _
      exact (pySorted_pairwise htrans htot _).imp
        (fun hab => of_decide_eq_true hab)

end Shukongdashi
